import Mathlib

set_option maxRecDepth 8000

/- Shallow embedding of the Domo user-management ownership-migration scripts.
   The latest revision of the orchestrator (Helpers.handleRequest, logTransfers,
   appendToDataset, transferContent and the ~25 per-kind transfer functions) is
   embedded, together with the getAccounts enumeration of the earlier main.js
   revision.  Remote calls are modelled by an environment: pure backend data
   plus an oracle saying which HTTP requests raise.  Each embedded function
   returns its event trace (requests issued, audit flush attempts, operational
   console logging) together with a normal or exceptional result. -/

/-- Exceptions of the embedded scripts: an HTTP error surfaced by the transport,
a JavaScript TypeError, or divergence (a while loop that never exits, expressed
through fuel exhaustion at every fuel). -/
inductive Err where
  | http (url : String)
  | typeErr (msg : String)
  | diverge
  deriving DecidableEq

deriving instance DecidableEq for Except

/-- Observable events of a run: a request that the transport answered, a request
that the transport raised on, a console (operational) log line, an audit flush
attempt (the call to appendToDataset with the batched CSV lines), and a flush
whose commit succeeded (the lines durably appended to the audit dataset). -/
inductive Event where
  | req (method url body : String)
  | reqFailed (method url body : String)
  | opLog (msg : String)
  | flush (lines : List String)
  | flushCommitted (lines : List String)
  deriving DecidableEq

/-- Result of running an embedded async function: the trace of events it
performed and either its value or the exception it rejected with. -/
structure Out (α : Type) where
  trace : List Event
  res : Except Err α

def Out.bind {α β : Type} (x : Out α) (f : α → Out β) : Out β :=
  match x.res with
  | Except.ok a => { trace := x.trace ++ (f a).trace, res := (f a).res }
  | Except.error e => { trace := x.trace, res := Except.error e }

instance : Monad Out where
  pure a := { trace := [], res := Except.ok a }
  bind := Out.bind

/-- A thrown JavaScript TypeError. -/
def jsThrow {α : Type} (msg : String) : Out α :=
  { trace := [], res := Except.error (Err.typeErr msg) }

/-- JavaScript Date under the UTC reading used by toISOString: calendar fields
plus milliseconds (always between 0 and 999). -/
structure JsDate where
  year : Nat
  month : Nat
  day : Nat
  hour : Nat
  minute : Nat
  second : Nat
  ms : Fin 1000
  deriving DecidableEq

def pad2 (n : Nat) : String :=
  if n < 10 then "0" ++ toString n else toString n

def pad3 (n : Nat) : String :=
  if n < 10 then "00" ++ toString n
  else if n < 100 then "0" ++ toString n
  else toString n

def pad4 (n : Nat) : String :=
  if n < 10 then "000" ++ toString n
  else if n < 100 then "00" ++ toString n
  else if n < 1000 then "0" ++ toString n
  else toString n

/-- The seconds-precision prefix YYYY-MM-DDTHH:mm:ss of an ISO-8601 UTC
timestamp. -/
def isoSeconds (d : JsDate) : String :=
  pad4 d.year ++ "-" ++ pad2 d.month ++ "-" ++ pad2 d.day ++ "T" ++
    pad2 d.hour ++ ":" ++ pad2 d.minute ++ ":" ++ pad2 d.second

/-- JavaScript Date.prototype.toISOString: YYYY-MM-DDTHH:mm:ss.sssZ, always in
UTC. -/
def toISOString (d : JsDate) : String :=
  isoSeconds d ++ "." ++ pad3 d.ms.val ++ "Z"

/-- JavaScript String.prototype.slice(0, -5): all but the last five
characters. -/
def jsSliceDropLast5 (s : String) : String :=
  String.mk (s.data.take (s.data.length - 5))

/-- The timestamp written into audit lines:
new Date().toISOString().slice(0, -5). -/
def logDate (d : JsDate) : String :=
  jsSliceDropLast5 (toISOString d)

/-- The id of the durable audit-log dataset hardcoded in appendToDataset and
logTransfers. -/
def auditDatasetId : String := "83dec9f2-206b-445a-90ea-b6a368b3157d"

/-- One audit row as serialized by logTransfers:
userId,newOwnerId,type,id,date,status,notes. -/
def auditLine (userId newOwnerId type id date status notes : String) : String :=
  String.intercalate "," [userId, newOwnerId, type, id, date, status, notes]

/-- Specification-side batching: groups of exactly 50 lines, except a final
partial group, in the original order. -/
def batchesSpec : List String → List (List String)
  | [] => []
  | a :: l =>
    if _h : l.length + 1 ≤ 50 then [a :: l]
    else (a :: l).take 50 :: batchesSpec ((a :: l).drop 50)
termination_by l => l.length
decreasing_by simp; omega

/-- The flush attempts (calls to appendToDataset) recorded in a trace. -/
def flushAttempts (tr : List Event) : List (List String) :=
  tr.filterMap fun e =>
    match e with
    | Event.flush lines => some lines
    | _ => none

/-- The audit rows whose flush committed, i.e. the durable content of the audit
log after the run. -/
def committedRows (tr : List Event) : List String :=
  (tr.filterMap fun e =>
    match e with
    | Event.flushCommitted lines => some lines
    | _ => none).flatten

def auditUploadsUrl : String :=
  "api/data/v3/datasources/" ++ auditDatasetId ++ "/uploads"

/-- Character-level string-prefix test (JavaScript startsWith). -/
def strHasPrefix (p s : String) : Bool :=
  decide (p.data <+: s.data)

/-- A request that can change backend state: any non-GET request that is not
part of an audit-log upload. -/
def isMutationReq (e : Event) : Bool :=
  match e with
  | Event.req m u _ => decide (m ≠ "GET") && !(strHasPrefix auditUploadsUrl u)
  | Event.reqFailed m u _ => decide (m ≠ "GET") && !(strHasPrefix auditUploadsUrl u)
  | _ => false

def mutationReqs (tr : List Event) : List Event :=
  tr.filter isMutationReq

/-- A dataset as returned by the datasources search; the search result carries
a tagList property (and no property named tagsList, so reading tagsList yields
undefined). -/
structure Dataset where
  id : String
  tagList : List String
  deriving DecidableEq

structure TaskRef where
  id : String
  queueId : String
  deriving DecidableEq

structure AppSummary where
  dataAppId : String
  ownerIds : List String
  deriving DecidableEq

structure GroupRec where
  id : String
  ownerIds : List String
  deriving DecidableEq

structure FuncRec where
  id : String
  isGlobal : Bool
  deriving DecidableEq

structure FunctionsPage where
  results : List FuncRec
  hasMore : Bool
  deriving DecidableEq

structure PeriodRec where
  id : String
  current : Bool
  deriving DecidableEq

structure SubSummary where
  subscriptionId : String
  deriving DecidableEq

structure SubShare where
  userId : String
  subId : String
  publicationId : String
  domain : String
  customerId : String
  shareUsers : List String
  shareGroups : List String
  deriving DecidableEq

structure ApprovalRec where
  id : String
  status : String
  pendingApproverId : String
  version : String
  deriving DecidableEq

structure DesignRec where
  id : String
  owner : String
  deriving DecidableEq

structure ProjectRec where
  id : String
  assignedTo : String
  deriving DecidableEq

structure Assignment where
  assignedTo : String
  assignedBy : String
  deriving DecidableEq

/-- A Task Center task record as read and written back by the projects-and-tasks
handler. -/
structure TaskRec where
  id : String
  primaryTaskOwner : String
  contributors : List Assignment
  owners : List Assignment
  deriving DecidableEq

/-- Deterministic backend data: for every paginated listing endpoint, the page
returned for a given offset (or page number), plus the fixed lookups the
scripts perform. -/
structure Backend where
  datasetPage : Nat → List Dataset
  displayName : String
  dataflowPage : Nat → List String
  cardPage : Nat → List String
  alertPage : Nat → List String
  workflowPage : Nat → List String
  taskPage : Nat → List TaskRef
  appSummaryPage : Nat → List AppSummary
  pagePage : Nat → List String
  reportRows : List String
  periods : List PeriodRec
  goals : List String
  groupPage : Nat → List GroupRec
  collectionPage : Nat → List String
  functionsPage : Nat → FunctionsPage
  accountPage : Nat → List String
  workspacePage : Nat → List String
  packagePage : Nat → List String
  filesetPage : Nat → List String
  publications : List String
  publicationOwner : String → String
  subscriptionSummaries : List SubSummary
  subscriptionShare : String → SubShare
  repoPage : Nat → List String
  approvalEdges : List ApprovalRec
  designPage : Nat → List DesignRec
  aiModelPage : Nat → List String
  aiProjectPage : Nat → List String
  projectPage : Nat → List ProjectRec
  tasksFor : String → List TaskRec
  uploadId : String

/-- The run environment: backend data, the oracle telling which requests the
transport raises on (keyed by method, url and body), and the wall clock, which
is modelled as constant within one run. -/
structure Env where
  backend : Backend
  httpFails : String → String → String → Bool
  now : JsDate

/-- Helpers.handleRequest: issue the request; on error, console.error and
rethrow. -/
def hreq {α : Type} (env : Env) (method url body : String) (resp : α) : Out α :=
  if env.httpFails method url body then
    { trace := [Event.reqFailed method url body,
                Event.opLog ("Error with " ++ method ++ " request to " ++ url)],
      res := Except.error (Err.http url) }
  else { trace := [Event.req method url body], res := Except.ok resp }

/-- getUserName: GET the user and return its displayName. -/
def getUserName (env : Env) (userId : String) : Out String :=
  hreq env "GET" ("/api/content/v3/users/" ++ userId) "" env.backend.displayName

/-- appendToDataset: start an upload session, upload the CSV part, commit
(partsUrl and commitUrl extend uploadUrl as in the source). -/
def appendToDataset (env : Env) (csvValues : String) (datasetId : String) : Out Unit := do
  let uploadUrl := "api/data/v3/datasources/" ++ datasetId ++ "/uploads"
  let uploadId ← hreq env "POST" uploadUrl
      "action=APPEND&message=Uploading&appendId=latest" env.backend.uploadId
  let _ ← hreq env "PUT" (uploadUrl ++ ("/" ++ uploadId ++ "/parts/1")) csvValues ()
  let _ ← hreq env "PUT" (uploadUrl ++ ("/" ++ uploadId ++ "/commit"))
      "index=true&appendId=latest&message=Append successful" ()
  pure ()

def tryFlushAux (batch : List String) (r : Out Unit) : Out Unit :=
  match r.res with
  | Except.ok _ =>
    { trace := Event.flush batch :: r.trace ++ [Event.flushCommitted batch],
      res := Except.ok () }
  | Except.error _ =>
    { trace := Event.flush batch :: r.trace ++ [Event.opLog "Logging failed"],
      res := Except.ok () }

/-- One flush of logTransfers: the appendToDataset call wrapped in try/catch,
with the failure reported to console.error and swallowed. -/
def tryFlush (env : Env) (batch : List String) : Out Unit :=
  tryFlushAux batch (appendToDataset env (String.intercalate "\n" batch ++ "\n") auditDatasetId)

/-- The accumulation loop of logTransfers: push one line per id and flush
whenever the batch reaches BATCH_SIZE = 50, then flush the final partial
batch. -/
def logLoop (env : Env) (line : String → String) : List String → List String → Out Unit
  | batch, [] => if batch.isEmpty then pure () else tryFlush env batch
  | batch, id :: rest =>
    if 50 ≤ (batch ++ [line id]).length then do
      let _ ← tryFlush env (batch ++ [line id])
      logLoop env line [] rest
    else
      logLoop env line (batch ++ [line id]) rest

/-- logTransfers: serialize one audit line per id, stamped with the run clock,
and flush in batches of 50.  The source defaults status to TRANSFERRED and
notes to null (which the template literal renders as the string null). -/
def logTransfers (env : Env) (userId newOwnerId type : String) (ids : List String)
    (status notes : String) : Out Unit :=
  logLoop env
    (fun id => auditLine userId newOwnerId type id (logDate env.now) status notes)
    [] ids

--------------------- Datasets ---------------------

/-- Pagination loop of transferDatasets: POST the datasources search with
count 100 and the current offset; stop on an empty page or a page shorter than
the count. -/
def datasetsLoop (env : Env) (userId : String) : Nat → Nat → Out (List Dataset)
  | 0, _ => { trace := [], res := Except.error Err.diverge }
  | fuel + 1, offset => do
    let page ← hreq env "POST" "/api/data/ui/v3/datasources/search"
        ("entities=DATASET&owned_by_id=" ++ userId ++ "&count=100&offset=" ++ toString offset)
        (env.backend.datasetPage offset)
    if page.length > 0 then
      if page.length < 100 then pure page
      else do
        let rest ← datasetsLoop env userId fuel (offset + 100)
        pure (page ++ rest)
    else pure []

def respUsersUrl (dsId : String) : String :=
  "/api/data/v2/datasources/" ++ dsId ++ "/responsibleUsers"

def tagsUrl (dsId : String) : String :=
  "/api/data/ui/v3/datasources/" ++ dsId ++ "/tags"

/-- Per-dataset mutation loop of transferDatasets: PUT the new responsible
user, then rebuild the tag list.  When the dataset has a non-empty tagList the
source reads datasets[i].tagsList, a property the search result does not have,
and calls .filter on it: that dereference of undefined throws a TypeError. -/
def datasetsMutLoop (env : Env) (newOwnerId userName : String) : List Dataset → Out Unit
  | [] => pure ()
  | ds :: rest => do
    let _ ← hreq env "PUT" (respUsersUrl ds.id) ("responsibleUserId=" ++ newOwnerId) ()
    Out.bind
      (if ds.tagList.length > 0 then
        (jsThrow "Cannot read properties of undefined reading filter" : Out (List String))
      else pure ds.tagList)
      (fun tags2 => do
        let _ ← hreq env "POST" (tagsUrl ds.id)
            (String.intercalate ";" (tags2 ++ ["From " ++ userName])) ()
        datasetsMutLoop env newOwnerId userName rest)

/-- transferDatasets: enumerate all datasets owned by the user, look up the
user name, mutate each dataset, then log every id under the kind tag
DATA_SOURCE. -/
def transferDatasets (env : Env) (fuel : Nat) (userId newOwnerId : String) : Out Unit := do
  let datasets ← datasetsLoop env userId fuel 0
  let userName ← getUserName env userId
  let _ ← datasetsMutLoop env newOwnerId userName datasets
  logTransfers env userId newOwnerId "DATA_SOURCE" (datasets.map Dataset.id)
    "TRANSFERRED" "null"

--------------------- Dataflows ---------------------

/-- Page loop of transferDataflows.  Within one non-empty page: the source
reads dataflows.tags where dataflows is the page array, so tags is undefined,
the default [] applies and the tag-removal branch is dead; then the page ids
are logged (status TRANSFERRED), then the bulk owner patch is issued, then the
From tag is added. -/
def dataflowsLoop (env : Env) (userId newOwnerId userName : String) : Nat → Nat → Out Unit
  | 0, _ => { trace := [], res := Except.error Err.diverge }
  | fuel + 1, offset => do
    let page ← hreq env "POST" "/api/search/v1/query"
        ("entities=DATAFLOW&owned_by_id=" ++ userId ++ "&count=100&offset=" ++ toString offset)
        (env.backend.dataflowPage offset)
    if page.length > 0 then do
      let _ ← logTransfers env userId newOwnerId "DATAFLOW_TYPE" page "TRANSFERRED" "null"
      let _ ← hreq env "PUT" "/api/dataprocessing/v1/dataflows/bulk/patch"
          ("dataFlowIds=" ++ String.intercalate ";" page ++ "&responsibleUserId=" ++ newOwnerId) ()
      let _ ← hreq env "PUT" "/api/dataprocessing/v1/dataflows/bulk/tag"
          ("dataFlowIds=" ++ String.intercalate ";" page ++ "&tagNames=From " ++ userName) ()
      if page.length < 100 then pure ()
      else dataflowsLoop env userId newOwnerId userName fuel (offset + 100)
    else pure ()

def transferDataflows (env : Env) (fuel : Nat) (userId newOwnerId : String) : Out Unit := do
  let userName ← getUserName env userId
  dataflowsLoop env userId newOwnerId userName fuel 0

--------------------- Cards ---------------------

/-- Page loop of transferCards: per non-empty page, add the new owner to all
cards of the page, remove the old owner, and log the page ids. -/
def cardsLoop (env : Env) (userId newOwnerId : String) : Nat → Nat → Out Unit
  | 0, _ => { trace := [], res := Except.error Err.diverge }
  | fuel + 1, offset => do
    let page ← hreq env "POST" "/api/search/v1/query"
        ("entityList=card&owned_by_id=" ++ userId ++ "&count=50&offset=" ++ toString offset)
        (env.backend.cardPage offset)
    if page.length > 0 then do
      let _ ← hreq env "POST" "/api/content/v1/cards/owners/add"
          ("cardIds=" ++ String.intercalate ";" page ++ "&cardOwners=" ++ newOwnerId) ()
      let _ ← hreq env "POST" "/api/content/v1/cards/owners/remove"
          ("cardIds=" ++ String.intercalate ";" page ++ "&cardOwners=" ++ userId) ()
      let _ ← logTransfers env userId newOwnerId "CARD" page "TRANSFERRED" "null"
      if page.length < 50 then pure ()
      else cardsLoop env userId newOwnerId fuel (offset + 50)
    else pure ()

def transferCards (env : Env) (fuel : Nat) (userId newOwnerId : String) : Out Unit :=
  cardsLoop env userId newOwnerId fuel 0

--------------------- Alerts ---------------------

def alertsLoop (env : Env) (userId : String) : Nat → Nat → Out (List String)
  | 0, _ => { trace := [], res := Except.error Err.diverge }
  | fuel + 1, offset => do
    let page ← hreq env "GET"
        ("/api/social/v4/alerts?ownerId=" ++ userId ++ "&limit=50&offset=" ++ toString offset)
        "" (env.backend.alertPage offset)
    if page.length > 0 then
      if page.length < 50 then pure page
      else do
        let rest ← alertsLoop env userId fuel (offset + 50)
        pure (page ++ rest)
    else pure []

def alertsMutLoop (env : Env) (newOwnerId : String) : List String → Out Unit
  | [] => pure ()
  | a :: rest => do
    let _ ← hreq env "PATCH" ("/api/social/v4/alerts/" ++ a)
        ("id=" ++ a ++ "&owner=" ++ newOwnerId) ()
    alertsMutLoop env newOwnerId rest

def transferAlerts (env : Env) (fuel : Nat) (userId newOwnerId : String) : Out Unit := do
  let alerts ← alertsLoop env userId fuel 0
  let _ ← alertsMutLoop env newOwnerId alerts
  logTransfers env userId newOwnerId "ALERT" alerts "TRANSFERRED" "null"

--------------------- Workflows ---------------------

def workflowsLoop (env : Env) (userId : String) : Nat → Nat → Out (List String)
  | 0, _ => { trace := [], res := Except.error Err.diverge }
  | fuel + 1, offset => do
    let page ← hreq env "POST" "/api/search/v1/query"
        ("entityList=workflow_model&owned_by_id=" ++ userId ++ "&count=100&offset=" ++
          toString offset)
        (env.backend.workflowPage offset)
    if page.length > 0 then
      if page.length < 100 then pure page
      else do
        let rest ← workflowsLoop env userId fuel (offset + 100)
        pure (page ++ rest)
    else pure []

def workflowsMutLoop (env : Env) (newOwnerId : String) : List String → Out Unit
  | [] => pure ()
  | w :: rest => do
    let _ ← hreq env "PUT" ("/api/workflow/v1/models/" ++ w) ("owner=" ++ newOwnerId) ()
    workflowsMutLoop env newOwnerId rest

/-- transferWorkflows: enumerate, then PUT the new owner on every model, and
only after the whole mutation loop log all ids. -/
def transferWorkflows (env : Env) (fuel : Nat) (userId newOwnerId : String) : Out Unit := do
  let workflows ← workflowsLoop env userId fuel 0
  let _ ← workflowsMutLoop env newOwnerId workflows
  logTransfers env userId newOwnerId "WORKFLOW_MODEL" workflows "TRANSFERRED" "null"

--------------------- Task Center tasks ---------------------

def taskCenterLoop (env : Env) (userId : String) : Nat → Nat → Out (List TaskRef)
  | 0, _ => { trace := [], res := Except.error Err.diverge }
  | fuel + 1, offset => do
    let page ← hreq env "POST"
        ("/api/queues/v1/tasks/list?limit=100&offset=" ++ toString offset)
        ("assignedTo=" ++ userId ++ "&status=OPEN") (env.backend.taskPage offset)
    if page.length > 0 then
      if page.length < 100 then pure page
      else do
        let rest ← taskCenterLoop env userId fuel (offset + 100)
        pure (page ++ rest)
    else pure []

def taskCenterMutLoop (env : Env) (newOwnerId : String) : List TaskRef → Out (List String)
  | [] => pure []
  | t :: rest => do
    let _ ← hreq env "PUT" ("/api/queues/v1/" ++ t.queueId ++ "/tasks/" ++ t.id ++ "/assign")
        ("userId=" ++ newOwnerId ++ "&taskIds=" ++ t.id) ()
    let ids ← taskCenterMutLoop env newOwnerId rest
    pure (t.id :: ids)

def transferTaskCenterTasks (env : Env) (fuel : Nat) (userId newOwnerId : String) : Out Unit := do
  let tasks ← taskCenterLoop env userId fuel 0
  let taskIdList ← taskCenterMutLoop env newOwnerId tasks
  logTransfers env userId newOwnerId "HOPPER_TASK" taskIdList "TRANSFERRED" "null"

--------------------- App Studio ---------------------

/-- Page loop of transferAppStudioApps: per non-empty page, the apps owned by
the user are bulk-reassigned and logged (when there are any), then the skip
advances. -/
def appStudioLoop (env : Env) (userId newOwnerId : String) : Nat → Nat → Out Unit
  | 0, _ => { trace := [], res := Except.error Err.diverge }
  | fuel + 1, skip => do
    let page ← hreq env "POST"
        ("/api/content/v1/dataapps/adminsummary?limit=30&skip=" ++ toString skip) ""
        (env.backend.appSummaryPage skip)
    if page.length > 0 then
      Out.bind
        (if ((page.filter (fun item => item.ownerIds.contains userId)).map
            AppSummary.dataAppId).length > 0 then do
          let apps := (page.filter (fun item => item.ownerIds.contains userId)).map
            AppSummary.dataAppId
          let _ ← hreq env "PUT" "/api/content/v1/dataapps/bulk/owners"
              ("entityIds=" ++ String.intercalate ";" apps ++ "&addOwner=" ++ newOwnerId) ()
          let _ ← hreq env "PUT" "/api/content/v1/dataapps/bulk/owners/remove"
              ("entityIds=" ++ String.intercalate ";" apps ++ "&removeOwner=" ++ userId) ()
          logTransfers env userId newOwnerId "DATA_APP" apps "TRANSFERRED" "null"
        else pure ())
        (fun _ =>
          if page.length < 30 then pure ()
          else appStudioLoop env userId newOwnerId fuel (skip + 30))
    else pure ()

def transferAppStudioApps (env : Env) (fuel : Nat) (userId newOwnerId : String) : Out Unit :=
  appStudioLoop env userId newOwnerId fuel 0

--------------------- Pages ---------------------

/-- Inner loop of transferPages: the source iterates index i over the page ids
but sends the whole id list in both bulk bodies on every iteration. -/
def pagesBulkLoop (env : Env) (userId newOwnerId : String) (pages : List String) :
    Nat → Out Unit
  | 0 => pure ()
  | n + 1 => do
    let _ ← hreq env "PUT" "/api/content/v1/pages/bulk/owners"
        ("pageIds=" ++ String.intercalate ";" pages ++ "&owner=" ++ newOwnerId) ()
    let _ ← hreq env "POST" "/api/content/v1/pages/bulk/owners/remove"
        ("pageIds=" ++ String.intercalate ";" pages ++ "&owner=" ++ userId) ()
    pagesBulkLoop env userId newOwnerId pages n

def pagesLoop (env : Env) (userId newOwnerId : String) : Nat → Nat → Out Unit
  | 0, _ => { trace := [], res := Except.error Err.diverge }
  | fuel + 1, offset => do
    let page ← hreq env "POST" "/api/search/v1/query"
        ("entityList=page&owned_by_id=" ++ userId ++ "&count=50&offset=" ++ toString offset)
        (env.backend.pagePage offset)
    if page.length > 0 then do
      let _ ← pagesBulkLoop env userId newOwnerId page page.length
      let _ ← logTransfers env userId newOwnerId "PAGE" page "TRANSFERRED" "null"
      if page.length < 50 then pure ()
      else pagesLoop env userId newOwnerId fuel (offset + 50)
    else pure ()

def transferPages (env : Env) (fuel : Nat) (userId newOwnerId : String) : Out Unit :=
  pagesLoop env userId newOwnerId fuel 0

--------------------- Scheduled reports ---------------------

def reportsMutLoop (env : Env) (newOwnerId : String) : List String → Out Unit
  | [] => pure ()
  | r :: rest => do
    let _ ← hreq env "GET" ("/api/content/v1/reportschedules/" ++ r) "" ()
    let _ ← hreq env "PUT" ("/api/content/v1/reportschedules/" ++ r)
        ("ownerId=" ++ newOwnerId) ()
    reportsMutLoop env newOwnerId rest

def transferScheduledReports (env : Env) (userId newOwnerId : String) : Out Unit := do
  let reports ← hreq env "POST" "api/query/v1/execute/b7306441-b8a7-481c-baaf-4fffadb0ff61"
      ("Report Id where Owner Id=" ++ userId) env.backend.reportRows
  let _ ← reportsMutLoop env newOwnerId reports
  logTransfers env userId newOwnerId "REPORT_SCHEDULE" reports "TRANSFERRED" "null"

--------------------- Goals ---------------------

/-- getCurrentPeriod: fetch all periods and take the id of the current one;
when none is current the .id dereference of undefined throws. -/
def getCurrentPeriod (env : Env) : Out String := do
  let periods ← hreq env "GET" "/api/social/v1/objectives/periods?all=true" ""
      env.backend.periods
  match periods.find? PeriodRec.current with
  | some p => pure p.id
  | none => jsThrow "Cannot read properties of undefined reading id"

def goalsMutLoop (env : Env) (newOwnerId : String) : List String → Out Unit
  | [] => pure ()
  | g :: rest => do
    let _ ← hreq env "PUT" ("/api/social/v1/objectives/" ++ g)
        ("ownerId=" ++ newOwnerId) ()
    goalsMutLoop env newOwnerId rest

/-- transferGoals: the third argument is interpolated into the profile URL.
transferContent passes the un-awaited promise getCurrentPeriod(), which a
template literal renders as the text of periodIdStr below. -/
def transferGoals (env : Env) (userId newOwnerId periodIdStr : String) : Out Unit := do
  let goals ← hreq env "GET"
      ("api/social/v2/objectives/profile?filterKeyResults=false&includeSampleGoal=false&periodId=" ++
        periodIdStr ++ "&ownerId=" ++ userId) "" env.backend.goals
  if goals.length > 0 then do
    let _ ← goalsMutLoop env newOwnerId goals
    logTransfers env userId newOwnerId "GOAL" goals "TRANSFERRED" "null"
  else pure ()

--------------------- Groups ---------------------

def groupsLoop (env : Env) (userId newOwnerId : String) : Nat → Nat → Out Unit
  | 0, _ => { trace := [], res := Except.error Err.diverge }
  | fuel + 1, offset => do
    let page ← hreq env "GET"
        ("/api/content/v2/groups/grouplist?owner=" ++ userId ++ "&limit=100&offset=" ++
          toString offset) "" (env.backend.groupPage offset)
    if page.length > 0 then
      Out.bind
        (if ((page.filter (fun g => g.ownerIds.contains userId)).map GroupRec.id).length
            > 0 then do
          let groupIds := (page.filter (fun g => g.ownerIds.contains userId)).map GroupRec.id
          let _ ← hreq env "PUT" "/api/content/v2/groups/access"
              ("groupIds=" ++ String.intercalate ";" groupIds ++ "&addOwner=" ++ newOwnerId ++
                "&removeOwner=" ++ userId) ()
          logTransfers env userId newOwnerId "GROUP" groupIds "TRANSFERRED" "null"
        else pure ())
        (fun _ =>
          if page.length < 100 then pure ()
          else groupsLoop env userId newOwnerId fuel (offset + 100))
    else pure ()

def transferGroups (env : Env) (fuel : Nat) (userId newOwnerId : String) : Out Unit :=
  groupsLoop env userId newOwnerId fuel 0

--------------------- AppDB collections ---------------------

def collectionsMutLoop (env : Env) (newOwnerId : String) : List String → Out Unit
  | [] => pure ()
  | c :: rest => do
    let _ ← hreq env "PUT" ("/api/datastores/v1/collections/" ++ c)
        ("id=" ++ c ++ "&owner=" ++ newOwnerId) ()
    collectionsMutLoop env newOwnerId rest

/-- Page loop of transferAppDbCollections.  After mutating a non-empty page the
source calls response.map where response is the object holding the collections
array, so the call to the undefined property map throws a TypeError before
logTransfers can run. -/
def collectionsLoop (env : Env) (userId newOwnerId : String) : Nat → Nat → Out Unit
  | 0, _ => { trace := [], res := Except.error Err.diverge }
  | fuel + 1, pageNumber => do
    let page ← hreq env "POST" "/api/datastores/v1/collections/query"
        ("ownedby=" ++ userId ++ "&pageSize=100&pageNumber=" ++ toString pageNumber)
        (env.backend.collectionPage pageNumber)
    if page.length > 0 then do
      let _ ← collectionsMutLoop env newOwnerId page
      (jsThrow "response.map is not a function" : Out Unit)
    else pure ()

def transferAppDbCollections (env : Env) (fuel : Nat) (userId newOwnerId : String) : Out Unit :=
  collectionsLoop env userId newOwnerId fuel 1

--------------------- Functions (beast modes and variables) ---------------------

def functionsLoop (env : Env) (userId newOwnerId : String) : Nat → Nat → Out Unit
  | 0, _ => { trace := [], res := Except.error Err.diverge }
  | fuel + 1, offset => do
    let resp ← hreq env "POST" "/api/query/v1/functions/search"
        ("owner=" ++ userId ++ "&limit=100&offset=" ++ toString offset)
        (env.backend.functionsPage offset)
    if resp.results.length > 0 then do
      let beastModes := (resp.results.filter (fun f => f.isGlobal = false)).map FuncRec.id
      let _ ← hreq env "POST" "/api/query/v1/functions/bulk/template"
          ("update=" ++ String.intercalate ";" beastModes ++ "&owner=" ++ newOwnerId) ()
      let _ ← logTransfers env userId newOwnerId "BEAST_MODE_FORMULA" beastModes
          "TRANSFERRED" "null"
      let variableFuncs := (resp.results.filter (fun f => f.isGlobal = true)).map FuncRec.id
      let _ ← hreq env "POST" "/api/query/v1/functions/bulk/template"
          ("update=" ++ String.intercalate ";" variableFuncs ++ "&owner=" ++ newOwnerId) ()
      let _ ← logTransfers env userId newOwnerId "VARIABLE" variableFuncs "TRANSFERRED" "null"
      if resp.hasMore then functionsLoop env userId newOwnerId fuel (offset + 100)
      else pure ()
    else pure ()

def transferFunctions (env : Env) (fuel : Nat) (userId newOwnerId : String) : Out Unit :=
  functionsLoop env userId newOwnerId fuel 0

--------------------- Accounts ---------------------

def accountsLoop (env : Env) (userId : String) : Nat → Nat → Out (List String)
  | 0, _ => { trace := [], res := Except.error Err.diverge }
  | fuel + 1, offset => do
    let page ← hreq env "POST" "/api/search/v1/query"
        ("entityList=account&owned_by_id=" ++ userId ++ "&count=100&offset=" ++ toString offset)
        (env.backend.accountPage offset)
    if page.length > 0 then
      if page.length < 100 then pure page
      else do
        let rest ← accountsLoop env userId fuel (offset + 100)
        pure (page ++ rest)
    else pure []

def accountsMutLoop (env : Env) (userId newOwnerId : String) : List String → Out Unit
  | [] => pure ()
  | a :: rest => do
    let _ ← hreq env "PUT" ("/api/data/v2/accounts/share/" ++ a)
        ("id=" ++ newOwnerId ++ "&accessLevel=OWNER") ()
    let _ ← hreq env "PUT" ("/api/data/v2/accounts/share/" ++ a)
        ("id=" ++ userId ++ "&accessLevel=NONE") ()
    accountsMutLoop env userId newOwnerId rest

def transferAccounts (env : Env) (fuel : Nat) (userId newOwnerId : String) : Out Unit := do
  let accountIds ← accountsLoop env userId fuel 0
  let _ ← accountsMutLoop env userId newOwnerId accountIds
  logTransfers env userId newOwnerId "ACCOUNT" accountIds "TRANSFERRED" "null"

--------------------- Jupyter workspaces ---------------------

def workspacesLoop (env : Env) (userId : String) : Nat → Nat → Out (List String)
  | 0, _ => { trace := [], res := Except.error Err.diverge }
  | fuel + 1, offset => do
    let page ← hreq env "POST" "/api/datascience/v1/search/workspaces"
        ("owner=" ++ userId ++ "&limit=100&offset=" ++ toString offset)
        (env.backend.workspacePage offset)
    if page.length > 0 then
      if page.length < 100 then pure page
      else do
        let rest ← workspacesLoop env userId fuel (offset + 100)
        pure (page ++ rest)
    else pure []

def workspacesMutLoop (env : Env) (newOwnerId : String) : List String → Out Unit
  | [] => pure ()
  | w :: rest => do
    let _ ← hreq env "PUT" ("/api/datascience/v1/workspaces/" ++ w ++ "/ownership")
        ("newOwnerId=" ++ newOwnerId) ()
    workspacesMutLoop env newOwnerId rest

def transferJupyterWorkspaces (env : Env) (fuel : Nat) (userId newOwnerId : String) :
    Out Unit := do
  let ids ← workspacesLoop env userId fuel 0
  let _ ← workspacesMutLoop env newOwnerId ids
  logTransfers env userId newOwnerId "DATA_SCIENCE_NOTEBOOK" ids "TRANSFERRED" "null"

--------------------- Code Engine packages ---------------------

def packagesLoop (env : Env) (userId : String) : Nat → Nat → Out (List String)
  | 0, _ => { trace := [], res := Except.error Err.diverge }
  | fuel + 1, offset => do
    let page ← hreq env "POST" "/api/search/v1/query"
        ("entityList=package&owned_by_id=" ++ userId ++ "&count=100&offset=" ++ toString offset)
        (env.backend.packagePage offset)
    if page.length > 0 then
      if page.length < 100 then pure page
      else do
        let rest ← packagesLoop env userId fuel (offset + 100)
        pure (page ++ rest)
    else pure []

def packagesMutLoop (env : Env) (newOwnerId : String) : List String → Out Unit
  | [] => pure ()
  | p :: rest => do
    let _ ← hreq env "PUT" ("/api/codeengine/v2/packages/" ++ p) ("owner=" ++ newOwnerId) ()
    packagesMutLoop env newOwnerId rest

def transferCodeEnginePackages (env : Env) (fuel : Nat) (userId newOwnerId : String) :
    Out Unit := do
  let ids ← packagesLoop env userId fuel 0
  let _ ← packagesMutLoop env newOwnerId ids
  logTransfers env userId newOwnerId "CODEENGINE_PACKAGE" ids "TRANSFERRED" "null"

--------------------- FileSets ---------------------

def filesetsLoop (env : Env) (userId : String) : Nat → Nat → Out (List String)
  | 0, _ => { trace := [], res := Except.error Err.diverge }
  | fuel + 1, offset => do
    let page ← hreq env "POST"
        ("/api/files/v1/filesets/search?offset=" ++ toString offset ++ "&limit=100")
        ("owner=" ++ userId) (env.backend.filesetPage offset)
    if page.length > 0 then
      if page.length < 100 then pure page
      else do
        let rest ← filesetsLoop env userId fuel (offset + 100)
        pure (page ++ rest)
    else pure []

def filesetsMutLoop (env : Env) (newOwnerId : String) : List String → Out Unit
  | [] => pure ()
  | f :: rest => do
    let _ ← hreq env "POST" ("/api/files/v1/filesets/" ++ f ++ "/ownership")
        ("userId=" ++ newOwnerId) ()
    filesetsMutLoop env newOwnerId rest

def transferFilesets (env : Env) (fuel : Nat) (userId newOwnerId : String) : Out Unit := do
  let ids ← filesetsLoop env userId fuel 0
  let _ ← filesetsMutLoop env newOwnerId ids
  logTransfers env userId newOwnerId "FILESET" ids "TRANSFERRED" "null"

--------------------- Domo Everywhere publications ---------------------

def pubNote : String :=
  "Publications cannot be transferred as the new owner must be an owner of all the content"

/-- Detail loop of getPublications: GET each publication and keep the ids whose
content.userId matches the departing user. -/
def pubsDetailLoop (env : Env) (userId : String) : List String → Out (List String)
  | [] => pure []
  | p :: rest => do
    let owner ← hreq env "GET" ("/api/publish/v2/publications/" ++ p) ""
        (env.backend.publicationOwner p)
    let restIds ← pubsDetailLoop env userId rest
    pure (if owner == userId then p :: restIds else restIds)

/-- getPublications: enumerate publications owned by the user and log them as
NOT_TRANSFERRED with an explanatory note; no mutation request is issued. -/
def getPublications (env : Env) (userId newOwnerId : String) : Out Unit := do
  let pubs ← hreq env "GET" "/api/publish/v2/publications" "" env.backend.publications
  Out.bind
    (if pubs.length > 0 then pubsDetailLoop env userId pubs else pure [])
    (fun publications =>
      logTransfers env userId newOwnerId "PUBLICATION" publications "NOT_TRANSFERRED" pubNote)

--------------------- Domo Everywhere subscriptions ---------------------

/-- Summary loop of transferSubscriptions: the URL carries no offset, so every
iteration fetches the same summaries; the loop only exits on a page shorter
than 40. -/
def subscriptionsLoop (env : Env) : Nat → Out (List SubSummary)
  | 0 => { trace := [], res := Except.error Err.diverge }
  | fuel + 1 => do
    let page ← hreq env "GET" "api/publish/v2/subscriptions/summaries" ""
        env.backend.subscriptionSummaries
    if page.length > 0 then
      if page.length < 40 then pure page
      else do
        let rest ← subscriptionsLoop env fuel
        pure (page ++ rest)
    else pure []

def subscriptionsMutLoop (env : Env) (userId newOwnerId : String) :
    List SubSummary → Out (List String)
  | [] => pure []
  | s :: rest => do
    let share ← hreq env "GET"
        ("api/publish/v2/subscriptions/" ++ s.subscriptionId ++ "/share") ""
        (env.backend.subscriptionShare s.subscriptionId)
    if share.userId == userId then do
      let _ ← hreq env "PUT" ("/api/publish/v2/subscriptions/" ++ share.subId)
          ("publicationId=" ++ share.publicationId ++ "&userId=" ++ newOwnerId) ()
      let ids ← subscriptionsMutLoop env userId newOwnerId rest
      pure (share.subId :: ids)
    else subscriptionsMutLoop env userId newOwnerId rest

def transferSubscriptions (env : Env) (fuel : Nat) (userId newOwnerId : String) : Out Unit := do
  let subscriptions ← subscriptionsLoop env fuel
  let subscriptionIds ← subscriptionsMutLoop env userId newOwnerId subscriptions
  logTransfers env userId newOwnerId "SUBSCRIPTION" subscriptionIds "TRANSFERRED" "null"

--------------------- Sandbox repositories ---------------------

def reposLoop (env : Env) (userId : String) : Nat → Nat → Out (List String)
  | 0, _ => { trace := [], res := Except.error Err.diverge }
  | fuel + 1, offset => do
    let page ← hreq env "POST" "/api/version/v1/repositories/search"
        ("userId=" ++ userId ++ "&limit=50&offset=" ++ toString offset)
        (env.backend.repoPage offset)
    if page.length > 0 then
      if page.length < 50 then pure page
      else do
        let rest ← reposLoop env userId fuel (offset + 50)
        pure (page ++ rest)
    else pure []

def reposMutLoop (env : Env) (newOwnerId : String) : List String → Out Unit
  | [] => pure ()
  | r :: rest => do
    let _ ← hreq env "POST" ("/api/version/v1/repositories/" ++ r)
        ("userId=" ++ newOwnerId ++ "&permission=OWNER") ()
    reposMutLoop env newOwnerId rest

def transferRepositories (env : Env) (fuel : Nat) (userId newOwnerId : String) : Out Unit := do
  let ids ← reposLoop env userId fuel 0
  let _ ← reposMutLoop env newOwnerId ids
  logTransfers env userId newOwnerId "REPOSITORY" ids "TRANSFERRED" "null"

--------------------- Approvals ---------------------

def approvalsUrl : String := "/api/synapse/approval/graphql"

def sentBackNote : String := "Transferring of sent back approvals is not supported"

/-- Mutation loop of transferApprovals over the PENDING approvals: each one is
re-checked for PENDING status and its approver replaced through the graphql
mutation. -/
def approvalsMutLoop (env : Env) (newOwnerId : String) : List ApprovalRec → Out Unit
  | [] => pure ()
  | a :: rest =>
    Out.bind
      (if a.status == "PENDING" then do
        let _ ← hreq env "POST" approvalsUrl
            ("replaceApprovers id=" ++ a.id ++ " version=" ++ a.version ++
              " newApproverId=" ++ newOwnerId) ()
        pure ()
      else pure ())
      (fun _ => approvalsMutLoop env newOwnerId rest)

/-- transferApprovals: one graphql search for the approvals awaiting the user,
replacement of the approver on the PENDING ones (logged TRANSFERRED), and a
NOT_TRANSFERRED log entry with a note for the sent-back ones, which are never
mutated. -/
def transferApprovals (env : Env) (userId newOwnerId : String) : Out Unit := do
  let edges ← hreq env "POST" approvalsUrl
      ("getFilteredRequests approverId=" ++ userId) env.backend.approvalEdges
  let pendingApprovals := edges.filter (fun a => a.status == "PENDING")
  let sentBackApprovals := edges.filter (fun a => a.status == "SENTBACK")
  let _ ← approvalsMutLoop env newOwnerId pendingApprovals
  let _ ← logTransfers env userId newOwnerId "APPROVAL"
      (pendingApprovals.map ApprovalRec.id) "TRANSFERRED" "null"
  logTransfers env userId newOwnerId "APPROVAL"
    (sentBackApprovals.map ApprovalRec.id) "NOT_TRANSFERRED" sentBackNote

--------------------- Custom apps ---------------------

def designsMutLoop (env : Env) (userId newOwnerId : String) :
    List DesignRec → Out (List String)
  | [] => pure []
  | d :: rest =>
    Out.bind
      (if d.owner == userId then do
        let _ ← hreq env "POST"
            ("/api/apps/v1/designs/" ++ d.id ++ "/permissions/ADMIN") newOwnerId ()
        pure [d.id]
      else pure [])
      (fun ids => do
        let restIds ← designsMutLoop env userId newOwnerId rest
        pure (ids ++ restIds))

/-- Page loop of transferCustomApps: appIds accumulates across pages and every
page logs the whole accumulated list. -/
def customAppsLoop (env : Env) (userId newOwnerId : String) :
    Nat → Nat → List String → Out Unit
  | 0, _, _ => { trace := [], res := Except.error Err.diverge }
  | fuel + 1, offset, appIds => do
    let page ← hreq env "GET"
        ("/api/apps/v1/designs?checkAdminAuthority=true&deleted=false&30&offset=" ++
          toString offset) "" (env.backend.designPage offset)
    if page.length > 0 then do
      let newIds ← designsMutLoop env userId newOwnerId page
      let appIds2 := appIds ++ newIds
      let _ ← logTransfers env userId newOwnerId "APP" appIds2 "TRANSFERRED" "null"
      if page.length < 30 then pure ()
      else customAppsLoop env userId newOwnerId fuel (offset + 30) appIds2
    else pure ()

def transferCustomApps (env : Env) (fuel : Nat) (userId newOwnerId : String) : Out Unit :=
  customAppsLoop env userId newOwnerId fuel 0 []

--------------------- AI models ---------------------

/-- Enumeration loop of transferAiModels.  The request body hardcodes both
limit 50 and offset 0; the loop variable offset is incremented but never used
in the request, so every iteration asks the backend for the same first page. -/
def aiModelsLoop (env : Env) (userId : String) : Nat → Nat → Out (List String)
  | 0, _ => { trace := [], res := Except.error Err.diverge }
  | fuel + 1, offset => do
    let page ← hreq env "POST" "/api/datascience/ml/v1/search/models"
        ("owner=" ++ userId ++ "&limit=50&offset=0") (env.backend.aiModelPage 0)
    if page.length > 0 then
      if page.length < 50 then pure page
      else do
        let rest ← aiModelsLoop env userId fuel (offset + 50)
        pure (page ++ rest)
    else pure []

/-- Mutation loop of transferAiModels: models holds plain id strings, and
models[i].id is undefined, so the URL interpolates the text undefined. -/
def aiModelsMutLoop (env : Env) (newOwnerId : String) : List String → Out Unit
  | [] => pure ()
  | _ :: rest => do
    let _ ← hreq env "POST" "/api/datascience/ml/v1/models/undefined/ownership"
        ("userId=" ++ newOwnerId) ()
    aiModelsMutLoop env newOwnerId rest

def transferAiModels (env : Env) (fuel : Nat) (userId newOwnerId : String) : Out Unit := do
  let models ← aiModelsLoop env userId fuel 0
  let _ ← aiModelsMutLoop env newOwnerId models
  logTransfers env userId newOwnerId "AI_MODEL" models "TRANSFERRED" "null"

--------------------- AI projects ---------------------

/-- Enumeration loop of transferAiProjects, with the same hardcoded offset 0 as
transferAiModels. -/
def aiProjectsLoop (env : Env) (userId : String) : Nat → Nat → Out (List String)
  | 0, _ => { trace := [], res := Except.error Err.diverge }
  | fuel + 1, offset => do
    let page ← hreq env "POST" "/api/datascience/ml/v1/search/projects"
        ("owner=" ++ userId ++ "&limit=50&offset=0") (env.backend.aiProjectPage 0)
    if page.length > 0 then
      if page.length < 50 then pure page
      else do
        let rest ← aiProjectsLoop env userId fuel (offset + 50)
        pure (page ++ rest)
    else pure []

def aiProjectsMutLoop (env : Env) (newOwnerId : String) : List String → Out Unit
  | [] => pure ()
  | _ :: rest => do
    let _ ← hreq env "POST" "/api/datascience/ml/v1/projects/undefined/ownership"
        ("userId=" ++ newOwnerId) ()
    aiProjectsMutLoop env newOwnerId rest

def transferAiProjects (env : Env) (fuel : Nat) (userId newOwnerId : String) : Out Unit := do
  let projects ← aiProjectsLoop env userId fuel 0
  let _ ← aiProjectsMutLoop env newOwnerId projects
  logTransfers env userId newOwnerId "AI_PROJECT" projects "TRANSFERRED" "null"

--------------------- Projects and tasks ---------------------

/-- The per-task update of transferProjectsAndTasks: reassign the primary owner
when it is the departing user and append a contributor entry and an owner entry
for the new owner. -/
def applyTaskTransfer (userId newOwnerId : String) (t : TaskRec) : TaskRec :=
  let t2 := if t.primaryTaskOwner == userId then
      { t with primaryTaskOwner := newOwnerId } else t
  { t2 with
    contributors := t2.contributors ++ [{ assignedTo := newOwnerId, assignedBy := userId }],
    owners := t2.owners ++ [{ assignedTo := newOwnerId, assignedBy := userId }] }

def taskBody (t : TaskRec) : String :=
  "primaryTaskOwner=" ++ t.primaryTaskOwner ++ "&contributors=" ++
    String.intercalate ";" (t.contributors.map (fun a => a.assignedTo ++ ":" ++ a.assignedBy)) ++
    "&owners=" ++
    String.intercalate ";" (t.owners.map (fun a => a.assignedTo ++ ":" ++ a.assignedBy))

/-- The PUT issued for each task; the source fires these from an un-awaited
forEach(async ...) callback, so a failure is an unhandled rejection that does
not abort the handler. -/
def tasksMutLoop (env : Env) (userId newOwnerId : String) : List TaskRec → Out Unit
  | [] => pure ()
  | t :: rest =>
    let upd := applyTaskTransfer userId newOwnerId t
    let r := hreq env "PUT" ("/api/content/v1/tasks/" ++ t.id) (taskBody upd) ()
    { trace := r.trace ++ (tasksMutLoop env userId newOwnerId rest).trace,
      res := (tasksMutLoop env userId newOwnerId rest).res }

/-- Enumeration loop of transferProjectsAndTasks.  The response is the array of
projects (its length is tested), but the source spreads response.projects,
a property the array does not have, so a non-empty response throws a
TypeError. -/
def projectsLoop (env : Env) (userId : String) : Nat → Nat → Out (List ProjectRec)
  | 0, _ => { trace := [], res := Except.error Err.diverge }
  | fuel + 1, offset => do
    let page ← hreq env "GET"
        ("/api/content/v2/users/" ++ userId ++ "/projects?limit=100&offset=" ++ toString offset)
        "" (env.backend.projectPage offset)
    if page.length > 0 then
      (jsThrow "Spread syntax requires iterable, response.projects is undefined" :
        Out (List ProjectRec))
    else pure []

def projectsMutLoop (env : Env) (userId newOwnerId : String) :
    List ProjectRec → Out (List String × List String)
  | [] => pure ([], [])
  | p :: rest => do
    let taskResponse ← hreq env "GET"
        ("/api/content/v1/projects/" ++ p.id ++ "/tasks?assignedToOwnerId=" ++ userId) ""
        (env.backend.tasksFor p.id)
    Out.bind
      (if taskResponse.length > 0 then do
        let _ ← tasksMutLoop env userId newOwnerId taskResponse
        pure (taskResponse.map TaskRec.id)
      else pure [])
      (fun theseTasks =>
        Out.bind
          (if p.assignedTo == userId then do
            let _ ← hreq env "PUT" ("/api/content/v1/projects/" ++ p.id)
                ("id=" ++ p.id ++ "&creator=" ++ newOwnerId) ()
            pure [p.id]
          else pure [])
          (fun thisProject => do
            let pair ← projectsMutLoop env userId newOwnerId rest
            pure (theseTasks ++ pair.1, thisProject ++ pair.2)))

def transferProjectsAndTasks (env : Env) (fuel : Nat) (userId newOwnerId : String) :
    Out Unit := do
  let projects ← projectsLoop env userId fuel 0
  let pair ← projectsMutLoop env userId newOwnerId projects
  let _ ← logTransfers env userId newOwnerId "PROJECT_TASK" pair.1 "TRANSFERRED" "null"
  logTransfers env userId newOwnerId "PROJECT" pair.2 "TRANSFERRED" "null"

--------------------- Orchestrator ---------------------

/-- A promise whose result is never awaited: its effects happen, a rejection is
an unhandled rejection. -/
def fireAndForget {α : Type} (x : Out α) : Out Unit :=
  { trace := x.trace, res := Except.ok () }

/-- Promise.all over the kind handlers: every handler is started eagerly and
runs to completion independently, so all traces occur (modelled in list order;
the proved properties do not depend on the interleaving); the combined promise
rejects when any handler rejects. -/
def promiseAll (xs : List (Out Unit)) : Out Unit :=
  { trace := (xs.map Out.trace).flatten,
    res :=
      match xs.find? (fun x =>
        match x.res with
        | Except.error _ => true
        | Except.ok _ => false) with
      | some x => x.res
      | none => Except.ok () }

/-- transferContent: run every kind handler for the pair
(userId, newOwnerId) under Promise.all.  transferGoals receives the un-awaited
promise getCurrentPeriod(), whose template-literal rendering is the text
[object Promise]; the period request itself still fires. -/
def transferContent (env : Env) (fuel : Nat) (userId newOwnerId : String) : Out Unit :=
  promiseAll [
    transferDatasets env fuel userId newOwnerId,
    transferDataflows env fuel userId newOwnerId,
    transferCards env fuel userId newOwnerId,
    transferAlerts env fuel userId newOwnerId,
    transferWorkflows env fuel userId newOwnerId,
    transferTaskCenterTasks env fuel userId newOwnerId,
    transferAppStudioApps env fuel userId newOwnerId,
    transferPages env fuel userId newOwnerId,
    transferScheduledReports env userId newOwnerId,
    Out.bind (fireAndForget (getCurrentPeriod env))
      (fun _ => transferGoals env userId newOwnerId "[object Promise]"),
    transferGroups env fuel userId newOwnerId,
    transferAppDbCollections env fuel userId newOwnerId,
    transferFunctions env fuel userId newOwnerId,
    transferAccounts env fuel userId newOwnerId,
    transferJupyterWorkspaces env fuel userId newOwnerId,
    transferCodeEnginePackages env fuel userId newOwnerId,
    transferFilesets env fuel userId newOwnerId,
    getPublications env userId newOwnerId,
    transferSubscriptions env fuel userId newOwnerId,
    transferRepositories env fuel userId newOwnerId,
    transferApprovals env userId newOwnerId,
    transferCustomApps env fuel userId newOwnerId,
    transferAiModels env fuel userId newOwnerId,
    transferAiProjects env fuel userId newOwnerId,
    transferProjectsAndTasks env fuel userId newOwnerId]

--------------------- The earlier main.js revision of getAccounts ---------------------

/-- getAccounts of the main.js revision (its requests go straight through
codeengine.sendRequest, not Helpers.handleRequest).  The loop body ends with an
unconditional moreData = false, overriding the page-length test right above it,
so the while body runs exactly once: one page is fetched and any account beyond
the first page is silently dropped. -/
def getAccountsMain (page : Nat → List String) (userId : String) : Out (List String) :=
  let resp := page 0
  { trace := [Event.req "POST" "/api/search/v1/query"
      ("entityList=account&owned_by_id=" ++ userId ++ "&count=100&offset=0")],
    res := Except.ok (if resp.length > 0 then resp else []) }

--------------------- Concrete run environments ---------------------

/-- A backend on which the departing user owns nothing anywhere (one current
goal period exists so that getCurrentPeriod resolves). -/
def emptyBackend : Backend where
  datasetPage := fun _ => []
  displayName := "Alice"
  dataflowPage := fun _ => []
  cardPage := fun _ => []
  alertPage := fun _ => []
  workflowPage := fun _ => []
  taskPage := fun _ => []
  appSummaryPage := fun _ => []
  pagePage := fun _ => []
  reportRows := []
  periods := [PeriodRec.mk "P1" true]
  goals := []
  groupPage := fun _ => []
  collectionPage := fun _ => []
  functionsPage := fun _ => FunctionsPage.mk [] false
  accountPage := fun _ => []
  workspacePage := fun _ => []
  packagePage := fun _ => []
  filesetPage := fun _ => []
  publications := []
  publicationOwner := fun _ => ""
  subscriptionSummaries := []
  subscriptionShare := fun _ => SubShare.mk "" "" "" "" "" [] []
  repoPage := fun _ => []
  approvalEdges := []
  designPage := fun _ => []
  aiModelPage := fun _ => []
  aiProjectPage := fun _ => []
  projectPage := fun _ => []
  tasksFor := fun _ => []
  uploadId := "U1"

def noFail : String → String → String → Bool := fun _ _ _ => false

def baseNow : JsDate := JsDate.mk 2026 10 11 12 30 45 123

def baseEnv : Env := Env.mk emptyBackend noFail baseNow

/-- Scenario for failure isolation: the user owns one dataset and one card, and
the workflow search request raises. -/
def env1 : Env :=
  { baseEnv with
    backend := { emptyBackend with
      datasetPage := fun o => if o = 0 then [Dataset.mk "D1" []] else []
      cardPage := fun o => if o = 0 then ["c1"] else [] }
    httpFails := fun m u b =>
      m == "POST" && u == "/api/search/v1/query" &&
        b == "entityList=workflow_model&owned_by_id=42&count=100&offset=0" }

/-- Scenario for audit-vs-mutation-failure: two workflows, and the ownership
PUT for the second one raises. -/
def env3a : Env :=
  { baseEnv with
    backend := { emptyBackend with
      workflowPage := fun o => if o = 0 then ["w1", "w2"] else [] }
    httpFails := fun m u _ => m == "PUT" && u == "/api/workflow/v1/models/w2" }

/-- Scenario: one dataflow, and the bulk owner patch raises. -/
def env3b : Env :=
  { baseEnv with
    backend := { emptyBackend with
      dataflowPage := fun o => if o = 0 then ["d1"] else [] }
    httpFails := fun m u _ => m == "PUT" && u == "/api/dataprocessing/v1/dataflows/bulk/patch" }

/-- Scenario: two workflows and no failures. -/
def env3c : Env :=
  { baseEnv with
    backend := { emptyBackend with
      workflowPage := fun o => if o = 0 then ["w1", "w2"] else [] } }

/-- Scenario for audit-append failure: the user owns two datasets and a card,
and every audit upload session request raises, so every flush fails. -/
def env5 : Env :=
  { baseEnv with
    backend := { emptyBackend with
      datasetPage := fun o => if o = 0 then [Dataset.mk "D1" [], Dataset.mk "D2" []] else []
      cardPage := fun o => if o = 0 then ["c1"] else [] }
    httpFails := fun m u _ => m == "POST" && u == auditUploadsUrl }

/-- Scenario for unsupported kinds: one publication owned by the user, one
sent-back approval and one pending approval. -/
def env6 : Env :=
  { baseEnv with
    backend := { emptyBackend with
      publications := ["P1"]
      publicationOwner := fun p => if p == "P1" then "42" else ""
      approvalEdges := [ApprovalRec.mk "A1" "SENTBACK" "42" "3",
                        ApprovalRec.mk "A2" "PENDING" "42" "7"] } }

/-- Scenario of the dataset walkthrough: the user owns exactly the two untagged
datasets D1 and D2 and nothing of any other kind. -/
def env7 : Env :=
  { baseEnv with
    backend := { emptyBackend with
      datasetPage := fun o => if o = 0 then [Dataset.mk "D1" [], Dataset.mk "D2" []] else [] } }

/-- Scenario for the tagged-dataset TypeError: an untagged dataset, then a
tagged one, then another untagged one. -/
def env10 : Env :=
  { baseEnv with
    backend := { emptyBackend with
      datasetPage := fun o =>
        if o = 0 then [Dataset.mk "D0" [], Dataset.mk "D1" ["Finance"], Dataset.mk "D2" []]
        else [] } }

/-- Scenario for the AI-model pagination bug: the user owns exactly 50 models,
one full page. -/
def envA : Env :=
  { baseEnv with
    backend := { emptyBackend with
      aiModelPage := fun o =>
        if o = 0 then (List.range 50).map (fun i => "m" ++ toString i) else [] } }

/-- Deterministic account backend of 150 ids for the main.js getAccounts bug:
pages of up to 100 starting at the requested offset. -/
def accountsB : Nat → List String := fun o =>
  (((List.range 150).map (fun i => "a" ++ toString i)).drop o).take 100

/-- Drop the first n characters of a string. -/
def dropChars (s : String) (n : Nat) : String := String.mk (s.data.drop n)

/-- The responsible user of a dataset after a trace: the value carried by the
last successful PUT against the dataset's responsibleUsers endpoint. -/
def ownerAfter (tr : List Event) (dsId : String) : Option String :=
  tr.foldl (fun acc e =>
    match e with
    | Event.req "PUT" url body =>
      if url == respUsersUrl dsId then
        some (dropChars body ("responsibleUserId=".data.length))
      else acc
    | _ => acc) none

/-- A well-formed audit row for a run of user u to new owner n at clock date d:
the ordered seven-field serialization produced by auditLine, with a status that
is either TRANSFERRED or NOT_TRANSFERRED. -/
def GoodLine (u n d line : String) : Prop :=
  ∃ t i st no, (st = "TRANSFERRED" ∨ st = "NOT_TRANSFERRED") ∧
    line = auditLine u n t i d st no

/-- Every audit line carried by an event is a well-formed audit row; events
other than flushes carry no audit lines. -/
def GoodEvent (u n d : String) : Event → Prop
  | Event.flush lines => ∀ l ∈ lines, GoodLine u n d l
  | Event.flushCommitted lines => ∀ l ∈ lines, GoodLine u n d l
  | Event.req _ _ _ => True
  | Event.reqFailed _ _ _ => True
  | Event.opLog _ => True

/-- Every event of the run satisfies GoodEvent. -/
def GoodOut (u n d : String) {α : Type} (o : Out α) : Prop :=
  ∀ e ∈ o.trace, GoodEvent u n d e

--------------------- Basic trace lemmas ---------------------

theorem Out.trace_bind {α β : Type} (x : Out α) (f : α → Out β) :
    (x >>= f).trace = x.trace ++ (match x.res with
      | Except.ok a => (f a).trace
      | Except.error _ => []) := by
  show (Out.bind x f).trace = _
  unfold Out.bind
  rcases x with ⟨tr, r⟩
  cases r <;> simp

theorem Out.res_bind {α β : Type} (x : Out α) (f : α → Out β) :
    (x >>= f).res = (match x.res with
      | Except.ok a => (f a).res
      | Except.error e => Except.error e) := by
  show (Out.bind x f).res = _
  unfold Out.bind
  rcases x with ⟨tr, r⟩
  cases r <;> simp

theorem Out.trace_pure {α : Type} (a : α) : (pure a : Out α).trace = [] := rfl

theorem Out.res_pure {α : Type} (a : α) : (pure a : Out α).res = Except.ok a := rfl

theorem Out.trace_bind_ok {α β : Type} {x : Out α} {a : α} (f : α → Out β)
    (h : x.res = Except.ok a) : (x >>= f).trace = x.trace ++ (f a).trace := by
  simp only [Out.trace_bind, h]

theorem Out.trace_bind_error {α β : Type} {x : Out α} {e : Err} (f : α → Out β)
    (h : x.res = Except.error e) : (x >>= f).trace = x.trace := by
  simp only [Out.trace_bind, h, List.append_nil]

theorem Out.res_bind_ok {α β : Type} {x : Out α} {a : α} (f : α → Out β)
    (h : x.res = Except.ok a) : (x >>= f).res = (f a).res := by
  simp only [Out.res_bind, h]

theorem Out.res_bind_error {α β : Type} {x : Out α} {e : Err} (f : α → Out β)
    (h : x.res = Except.error e) : (x >>= f).res = Except.error e := by
  simp only [Out.res_bind, h]

theorem flushAttempts_append (t1 t2 : List Event) :
    flushAttempts (t1 ++ t2) = flushAttempts t1 ++ flushAttempts t2 :=
  List.filterMap_append t1 t2 _

theorem flushAttempts_bind_ok {α β : Type} {x : Out α} {a : α} (f : α → Out β)
    (h : x.res = Except.ok a) :
    flushAttempts (x >>= f).trace = flushAttempts x.trace ++ flushAttempts (f a).trace := by
  rw [Out.trace_bind_ok f h, flushAttempts_append]

theorem flushAttempts_hreq {α : Type} (env : Env) (m u b : String) (r : α) :
    flushAttempts (hreq env m u b r).trace = [] := by
  unfold hreq
  split <;> rfl

theorem flushAttempts_bind_nil {α β : Type} {x : Out α} {f : α → Out β}
    (hx : flushAttempts x.trace = []) (hf : ∀ a, flushAttempts (f a).trace = []) :
    flushAttempts (x >>= f).trace = [] := by
  rw [Out.trace_bind, flushAttempts_append, hx, List.nil_append]
  cases h : x.res with
  | ok a => simp only [h]; exact hf a
  | error e => simp only [h]; rfl

theorem flushAttempts_appendToDataset (env : Env) (csv d : String) :
    flushAttempts (appendToDataset env csv d).trace = [] := by
  unfold appendToDataset
  exact flushAttempts_bind_nil (flushAttempts_hreq env _ _ _ _) fun a =>
    flushAttempts_bind_nil (flushAttempts_hreq env _ _ _ _) fun b =>
      flushAttempts_bind_nil (flushAttempts_hreq env _ _ _ _) fun c => rfl

theorem tryFlush_res (env : Env) (batch : List String) :
    (tryFlush env batch).res = Except.ok () := by
  unfold tryFlush tryFlushAux
  split <;> rfl

theorem tryFlush_flushes (env : Env) (batch : List String) :
    flushAttempts (tryFlush env batch).trace = [batch] := by
  have haux : ∀ r : Out Unit, flushAttempts r.trace = [] →
      flushAttempts (tryFlushAux batch r).trace = [batch] := by
    intro r hr
    unfold tryFlushAux
    split <;>
      simp [flushAttempts, List.filterMap_cons, List.filterMap_append] <;>
      simpa [flushAttempts] using hr
  exact haux _ (flushAttempts_appendToDataset env _ _)

--------------------- Batching (logTransfers) ---------------------

theorem batchesSpec_nil : batchesSpec [] = [] := by
  rw [batchesSpec]

theorem batchesSpec_cons50 (b X : List String) (hb : b.length = 50) :
    batchesSpec (b ++ X) = b :: batchesSpec X := by
  rcases b with _ | ⟨a, bt⟩
  · simp at hb
  have hbt : bt.length = 49 := by simpa using hb
  show batchesSpec (a :: (bt ++ X)) = _
  rw [batchesSpec]
  rcases X with _ | ⟨x, xs⟩
  · have hcond : (bt ++ ([] : List String)).length + 1 ≤ 50 := by simp [hbt]
    rw [dif_pos hcond, batchesSpec_nil]
    simp
  · have hcond : ¬((bt ++ x :: xs).length + 1 ≤ 50) := by simp [hbt]
    simp only [hcond, dite_false]
    have h1 : List.take 50 (a :: (bt ++ x :: xs)) = a :: bt := by
      have : (a :: bt) ++ (x :: xs) = a :: (bt ++ x :: xs) := by simp
      rw [← this]
      exact List.take_left' hb
    have h2 : List.drop 50 (a :: (bt ++ x :: xs)) = x :: xs := by
      have : (a :: bt) ++ (x :: xs) = a :: (bt ++ x :: xs) := by simp
      rw [← this]
      exact List.drop_left' hb
    rw [h1, h2]

theorem batchesSpec_flatten (l : List String) : (batchesSpec l).flatten = l := by
  have H : ∀ (n : Nat) (l : List String), l.length ≤ n → (batchesSpec l).flatten = l := by
    intro n
    induction n with
    | zero =>
      intro l hl
      rcases l with _ | ⟨a, t⟩
      · simp [batchesSpec_nil]
      · simp at hl
    | succ n ih =>
      intro l hl
      rcases l with _ | ⟨a, t⟩
      · simp [batchesSpec_nil]
      · rw [batchesSpec]
        split
        · simp
        · rename_i hcond
          rw [List.flatten_cons, ih ((a :: t).drop 50) (by simp at hl ⊢; omega)]
          exact List.take_append_drop 50 (a :: t)
  exact H l.length l le_rfl

theorem batchesSpec_length (l : List String) :
    (batchesSpec l).length = (l.length + 49) / 50 := by
  have H : ∀ (n : Nat) (l : List String), l.length ≤ n →
      (batchesSpec l).length = (l.length + 49) / 50 := by
    intro n
    induction n with
    | zero =>
      intro l hl
      rcases l with _ | ⟨a, t⟩
      · simp [batchesSpec_nil]
      · simp at hl
    | succ n ih =>
      intro l hl
      rcases l with _ | ⟨a, t⟩
      · simp [batchesSpec_nil]
      · rw [batchesSpec]
        split
        · rename_i hcond
          simp only [List.length_cons, List.length_nil]
          omega
        · rename_i hcond
          simp only [List.length_cons]
          rw [ih ((a :: t).drop 50) (by simp at hl ⊢; omega)]
          simp only [List.length_drop, List.length_cons]
          omega
  exact H l.length l le_rfl

theorem batchesSpec_dropLast (l : List String) :
    ∀ b ∈ (batchesSpec l).dropLast, b.length = 50 := by
  have H : ∀ (n : Nat) (l : List String), l.length ≤ n →
      ∀ b ∈ (batchesSpec l).dropLast, b.length = 50 := by
    intro n
    induction n with
    | zero =>
      intro l hl
      rcases l with _ | ⟨a, t⟩
      · simp [batchesSpec_nil]
      · simp at hl
    | succ n ih =>
      intro l hl
      rcases l with _ | ⟨a, t⟩
      · simp [batchesSpec_nil]
      · rw [batchesSpec]
        split
        · simp
        · rename_i hcond
          rcases hr : batchesSpec ((a :: t).drop 50) with _ | ⟨r, rs⟩
          · simp
          · intro b hb
            rw [List.dropLast_cons₂] at hb
            rcases List.mem_cons.mp hb with h | h
            · subst h
              simp at hl ⊢
              omega
            · rw [← hr] at h
              exact ih ((a :: t).drop 50) (by simp at hl ⊢; omega) b h
  exact H l.length l le_rfl

theorem logLoop_res (env : Env) (lineF : String → String) :
    ∀ (ids batch : List String), (logLoop env lineF batch ids).res = Except.ok () := by
  intro ids
  induction ids with
  | nil =>
    intro batch
    unfold logLoop
    split
    · rfl
    · exact tryFlush_res env batch
  | cons id rest ih =>
    intro batch
    unfold logLoop
    split
    · rw [Out.res_bind, tryFlush_res]
      exact ih []
    · exact ih (batch ++ [lineF id])

theorem logLoop_flushes (env : Env) (lineF : String → String) :
    ∀ (ids batch : List String), batch.length < 50 →
      flushAttempts (logLoop env lineF batch ids).trace
        = batchesSpec (batch ++ ids.map lineF) := by
  intro ids
  induction ids with
  | nil =>
    intro batch hb
    unfold logLoop
    simp only [List.map_nil, List.append_nil]
    split
    · rename_i hem
      have hbe : batch = [] := by simpa [List.isEmpty_iff] using hem
      subst hbe
      simp only [Out.trace_pure, batchesSpec_nil]
      rfl
    · rename_i hem
      rcases batch with _ | ⟨a, bt⟩
      · simp [List.isEmpty_iff] at hem
      · rw [tryFlush_flushes, batchesSpec]
        have hcond : bt.length + 1 ≤ 50 := by
          simp only [List.length_cons] at hb
          omega
        rw [dif_pos hcond]
  | cons id rest ih =>
    intro batch hb
    unfold logLoop
    split
    · rename_i hcond
      have h50 : (batch ++ [lineF id]).length = 50 := by
        simp only [List.length_append, List.length_cons, List.length_nil] at hcond ⊢
        omega
      rw [flushAttempts_bind_ok _ (tryFlush_res env _), tryFlush_flushes,
        ih [] (by simp)]
      have hsplit : batch ++ List.map lineF (id :: rest)
          = (batch ++ [lineF id]) ++ List.map lineF rest := by simp
      rw [hsplit, batchesSpec_cons50 _ _ h50]
      simp
    · rename_i hcond
      rw [ih (batch ++ [lineF id]) (by
        simp only [List.length_append, List.length_cons, List.length_nil] at hcond ⊢
        omega)]
      congr 1
      simp

theorem logTransfers_res (env : Env) (u n t st no : String) (ids : List String) :
    (logTransfers env u n t ids st no).res = Except.ok () :=
  logLoop_res env _ ids []

/-- C4: given n resource ids for one kind, logTransfers performs exactly
one flush per batch of 50 serialized lines plus a final partial batch, i.e.
ceil(n/50) flushes, every flush except possibly the last holding exactly 50
lines, the lines in discovery order with none duplicated or omitted; for 125
ids this is 3 flushes of sizes 50, 50, 25. -/
theorem logTransfers_batching (env : Env) (u n t st no : String) (ids : List String) :
    flushAttempts (logTransfers env u n t ids st no).trace
      = batchesSpec (ids.map fun i => auditLine u n t i (logDate env.now) st no)
    ∧ (flushAttempts (logTransfers env u n t ids st no).trace).flatten
      = ids.map (fun i => auditLine u n t i (logDate env.now) st no)
    ∧ (flushAttempts (logTransfers env u n t ids st no).trace).length
      = (ids.length + 49) / 50
    ∧ (∀ b ∈ (flushAttempts (logTransfers env u n t ids st no).trace).dropLast,
        b.length = 50)
    ∧ (flushAttempts (logTransfers baseEnv "42" "99" "DATASET"
          ((List.range 125).map toString) "TRANSFERRED" "null").trace).map List.length
      = [50, 50, 25] := by
  have h := logLoop_flushes env
    (fun i => auditLine u n t i (logDate env.now) st no) ids [] (by simp)
  rw [List.nil_append] at h
  have h1 : flushAttempts (logTransfers env u n t ids st no).trace
      = batchesSpec (ids.map fun i => auditLine u n t i (logDate env.now) st no) := h
  refine ⟨h1, ?_, ?_, ?_, by decide⟩
  · rw [h1, batchesSpec_flatten]
  · rw [h1, batchesSpec_length, List.length_map]
  · rw [h1]
    exact batchesSpec_dropLast _

/-- Witness for C4 at a concrete input. -/
theorem logTransfers_batching_witness :
    (flushAttempts (logTransfers baseEnv "7" "8" "KIND" ["a", "b"] "TRANSFERRED" "null").trace).length
      = ((["a", "b"] : List String).length + 49) / 50 :=
  (logTransfers_batching baseEnv "7" "8" "KIND" "TRANSFERRED" "null" ["a", "b"]).2.2.1

/-- C5: a failed audit flush is caught inside logTransfers (reported to the
operational log and swallowed), so logTransfers always resolves, for every
environment and in particular when every append raises; in the concrete run
where every audit upload request raises, transferContent still resolves, every
mutation call still occurs, the flushes are still attempted, nothing is
committed, and the failure is reported to the operational log. -/
theorem audit_flush_failure_swallowed :
    (∀ (env : Env) (u n t st no : String) (ids : List String),
      (logTransfers env u n t ids st no).res = Except.ok ())
    ∧ (transferContent env5 3 "42" "99").res = Except.ok ()
    ∧ committedRows (transferContent env5 3 "42" "99").trace = []
    ∧ flushAttempts (transferContent env5 3 "42" "99").trace
        = [[auditLine "42" "99" "DATA_SOURCE" "D1" (logDate baseNow) "TRANSFERRED" "null",
            auditLine "42" "99" "DATA_SOURCE" "D2" (logDate baseNow) "TRANSFERRED" "null"],
           [auditLine "42" "99" "CARD" "c1" (logDate baseNow) "TRANSFERRED" "null"]]
    ∧ Event.opLog "Logging failed" ∈ (transferContent env5 3 "42" "99").trace
    ∧ Event.req "PUT" (respUsersUrl "D1") "responsibleUserId=99"
        ∈ (transferContent env5 3 "42" "99").trace
    ∧ Event.req "PUT" (respUsersUrl "D2") "responsibleUserId=99"
        ∈ (transferContent env5 3 "42" "99").trace
    ∧ Event.req "POST" "/api/content/v1/cards/owners/add" "cardIds=c1&cardOwners=99"
        ∈ (transferContent env5 3 "42" "99").trace :=
  ⟨fun env u n t st no ids => logTransfers_res env u n t st no ids, by decide⟩

theorem aiModelsLoop_full_first_page (env : Env) (u : String)
    (hlen : (env.backend.aiModelPage 0).length = 50)
    (hok : env.httpFails "POST" "/api/datascience/ml/v1/search/models"
        ("owner=" ++ u ++ "&limit=50&offset=0") = false) :
    ∀ (fuel offset : Nat),
      (aiModelsLoop env u fuel offset).res = Except.error Err.diverge := by
  intro fuel
  induction fuel with
  | zero => intro offset; rfl
  | succ f ih =>
    intro offset
    unfold aiModelsLoop
    have hq : (hreq env "POST" "/api/datascience/ml/v1/search/models"
        ("owner=" ++ u ++ "&limit=50&offset=0") (env.backend.aiModelPage 0)).res
        = Except.ok (env.backend.aiModelPage 0) := by
      unfold hreq
      rw [hok]
      simp
    rw [Out.res_bind_ok _ hq]
    simp only [hlen, gt_iff_lt]
    rw [if_pos (by omega), if_neg (by omega)]
    exact Out.res_bind_error _ (ih (offset + 50))

/-- C2: the two failing enumerations.  transferAiModels hardcodes offset 0 in
the request body, so on a backend deterministically holding 50 models (a full
first page) the loop refetches the same page forever and never terminates
(result divergence at every fuel, instead of the claimed one page fetch
collecting the 50 items); getAccounts of main.js sets moreData to false
unconditionally at the end of the loop body, so on a backend of 150 accounts
it issues exactly 1 page fetch and returns only the first 100 ids, with id
a120 silently dropped (instead of the claimed 2 fetches collecting all
150). -/
theorem pagination_bugs_at_failing_inputs :
    (∀ (fuel offset : Nat),
      (aiModelsLoop envA "42" fuel offset).res = Except.error Err.diverge)
    ∧ (transferAiModels envA 9 "42" "99").res = Except.error Err.diverge
    ∧ (getAccountsMain accountsB "42").trace.length = 1
    ∧ (getAccountsMain accountsB "42").res
        = Except.ok (((List.range 150).map (fun i => "a" ++ toString i)).take 100)
    ∧ ((List.range 150).map (fun i => "a" ++ toString i)).length = 150
    ∧ "a120" ∈ (List.range 150).map (fun i => "a" ++ toString i)
    ∧ "a120" ∉ ((getAccountsMain accountsB "42").res.toOption.getD []) :=
  ⟨aiModelsLoop_full_first_page envA "42" (by decide) rfl, by decide⟩

/-- C1 counterexample: with the workflow enumeration request raising, the
exception is not caught at any kind boundary: transferContent itself rejects
with the HTTP error instead of proceeding normally. -/
theorem transferContent_rejects_on_kind_failure :
    (transferContent env1 3 "42" "99").res
      = Except.error (Err.http "/api/search/v1/query") := by decide

/-- C1 amended: an exception while processing one kind is logged by the
request helper and propagates out of transferContent (rejecting it); but
because every kind handler is started eagerly under Promise.all, a single
kind's failure does not prevent the other kinds from being migrated and from
producing their committed audit records. -/
theorem transferContent_concurrent_isolation :
    (transferContent env1 3 "42" "99").res
      = Except.error (Err.http "/api/search/v1/query")
    ∧ Event.opLog "Error with POST request to /api/search/v1/query"
        ∈ (transferContent env1 3 "42" "99").trace
    ∧ Event.req "PUT" (respUsersUrl "D1") "responsibleUserId=99"
        ∈ (transferContent env1 3 "42" "99").trace
    ∧ auditLine "42" "99" "DATA_SOURCE" "D1" (logDate baseNow) "TRANSFERRED" "null"
        ∈ committedRows (transferContent env1 3 "42" "99").trace
    ∧ Event.req "POST" "/api/content/v1/cards/owners/add" "cardIds=c1&cardOwners=99"
        ∈ (transferContent env1 3 "42" "99").trace
    ∧ auditLine "42" "99" "CARD" "c1" (logDate baseNow) "TRANSFERRED" "null"
        ∈ committedRows (transferContent env1 3 "42" "99").trace := by decide

/-- C3 counterexample: in transferWorkflows the mutation of w1 succeeds and the
mutation of w2 is attempted and raises, yet not a single audit record is even
attempted, because the kind logs only after its whole mutation loop. -/
theorem workflows_failed_mutation_drops_audit :
    flushAttempts (transferWorkflows env3a 3 "42" "99").trace = []
    ∧ Event.req "PUT" "/api/workflow/v1/models/w1" "owner=99"
        ∈ (transferWorkflows env3a 3 "42" "99").trace
    ∧ Event.reqFailed "PUT" "/api/workflow/v1/models/w2" "owner=99"
        ∈ (transferWorkflows env3a 3 "42" "99").trace
    ∧ (transferWorkflows env3a 3 "42" "99").res
        = Except.error (Err.http "/api/workflow/v1/models/w2") := by decide

/-- C3 amended: audit coverage under mutation failure depends on the kind:
transferDataflows logs a page's ids (status TRANSFERRED) before mutating, so
they are recorded even when the bulk mutation then raises; transferWorkflows
records its ids only when every mutation succeeded. -/
theorem audit_records_vs_mutation_failure :
    committedRows (transferDataflows env3b 3 "42" "99").trace
      = [auditLine "42" "99" "DATAFLOW_TYPE" "d1" (logDate baseNow) "TRANSFERRED" "null"]
    ∧ (transferDataflows env3b 3 "42" "99").res
        = Except.error (Err.http "/api/dataprocessing/v1/dataflows/bulk/patch")
    ∧ committedRows (transferWorkflows env3c 3 "42" "99").trace
      = [auditLine "42" "99" "WORKFLOW_MODEL" "w1" (logDate baseNow) "TRANSFERRED" "null",
         auditLine "42" "99" "WORKFLOW_MODEL" "w2" (logDate baseNow) "TRANSFERRED" "null"]
    ∧ (transferWorkflows env3c 3 "42" "99").res = Except.ok () := by decide

/-- C7 counterexample: in the two-dataset scenario both responsible-user
fields are set to 99 and exactly two audit rows are committed, but their kind
tag is DATA_SOURCE, not DATASET: no committed row carries type DATASET. -/
theorem two_datasets_audit_type_counterexample :
    committedRows (transferContent env7 3 "42" "99").trace
      = [auditLine "42" "99" "DATA_SOURCE" "D1" (logDate baseNow) "TRANSFERRED" "null",
         auditLine "42" "99" "DATA_SOURCE" "D2" (logDate baseNow) "TRANSFERRED" "null"]
    ∧ auditLine "42" "99" "DATASET" "D1" (logDate baseNow) "TRANSFERRED" "null"
        ∉ committedRows (transferContent env7 3 "42" "99").trace
    ∧ auditLine "42" "99" "DATASET" "D2" (logDate baseNow) "TRANSFERRED" "null"
        ∉ committedRows (transferContent env7 3 "42" "99").trace
    ∧ "DATA_SOURCE" ≠ "DATASET" := by decide

/-- C7 amended: with the source user owning exactly the untagged datasets D1
and D2 and nothing else, transferContent 42 to 99 resolves, sets both
datasets' responsible user to 99, and commits exactly two audit rows, typed
DATA_SOURCE with status TRANSFERRED. -/
theorem two_datasets_scenario_amended :
    (transferContent env7 3 "42" "99").res = Except.ok ()
    ∧ ownerAfter (transferContent env7 3 "42" "99").trace "D1" = some "99"
    ∧ ownerAfter (transferContent env7 3 "42" "99").trace "D2" = some "99"
    ∧ committedRows (transferContent env7 3 "42" "99").trace
      = [auditLine "42" "99" "DATA_SOURCE" "D1" (logDate baseNow) "TRANSFERRED" "null",
         auditLine "42" "99" "DATA_SOURCE" "D2" (logDate baseNow) "TRANSFERRED" "null"] := by
  decide

/-- C9 counterexample: the dataset transfer is not idempotent: a first run on
the untagged dataset D1 succeeds and tags it From Alice, and a second run on
the dataset in exactly that post-transfer state (tagList now non-empty) throws
a TypeError instead of being a harmless no-op. -/
theorem transfer_twice_counterexample :
    (datasetsMutLoop baseEnv "99" "Alice" [Dataset.mk "D1" []]).res = Except.ok ()
    ∧ Event.req "POST" (tagsUrl "D1") "From Alice"
        ∈ (datasetsMutLoop baseEnv "99" "Alice" [Dataset.mk "D1" []]).trace
    ∧ (datasetsMutLoop baseEnv "99" "Alice" [Dataset.mk "D1" ["From Alice"]]).res
        = Except.error (Err.typeErr "Cannot read properties of undefined reading filter") := by
  decide

/-- C9 amended: transfers are not idempotent for every kind: the bare
responsible-user overwrite is harmless to repeat, but the per-task update
appends a duplicate contributor and owner entry on each run, and a second
dataset run on a dataset tagged by the first run throws. -/
theorem transfer_idempotence_amended :
    (applyTaskTransfer "42" "99" (applyTaskTransfer "42" "99"
        (TaskRec.mk "t1" "42" [] []))).contributors
      = [Assignment.mk "99" "42", Assignment.mk "99" "42"]
    ∧ (applyTaskTransfer "42" "99" (TaskRec.mk "t1" "42" [] [])).contributors
      = [Assignment.mk "99" "42"]
    ∧ applyTaskTransfer "42" "99" (applyTaskTransfer "42" "99" (TaskRec.mk "t1" "42" [] []))
      ≠ applyTaskTransfer "42" "99" (TaskRec.mk "t1" "42" [] [])
    ∧ ownerAfter ((datasetsMutLoop baseEnv "99" "Alice" [Dataset.mk "D1" []]).trace
        ++ (datasetsMutLoop baseEnv "99" "Alice" [Dataset.mk "D1" []]).trace) "D1"
      = ownerAfter (datasetsMutLoop baseEnv "99" "Alice" [Dataset.mk "D1" []]).trace "D1" := by
  decide

--------------------- Audit-row schema machinery ---------------------

theorem pad3_length : ∀ m : Fin 1000, (pad3 m.val).length = 3 := by decide

/-- Slicing the fixed 5-character suffix .sssZ off toISOString leaves exactly
the seconds-precision ISO-8601 rendering of the UTC clock. -/
theorem logDate_eq_isoSeconds (d : JsDate) : logDate d = isoSeconds d := by
  have h3 : (pad3 d.ms.val).data.length = 3 := pad3_length d.ms
  have h5 : ("." ++ pad3 d.ms.val ++ "Z").data.length = 5 := by
    simp only [String.data_append, List.length_append, List.length_cons,
      List.length_nil]
    omega
  unfold logDate jsSliceDropLast5
  have hdata : (toISOString d).data
      = (isoSeconds d).data ++ ("." ++ pad3 d.ms.val ++ "Z").data := by
    unfold toISOString
    simp [String.data_append]
  rw [hdata, List.length_append, h5, Nat.add_sub_cancel,
    List.take_left' rfl]

theorem goodOut_mk_nil {α : Type} {u n d : String} {r : Except Err α} :
    GoodOut u n d (Out.mk [] r) :=
  fun e he => absurd he (List.not_mem_nil e)

theorem goodOut_pure {α : Type} {u n d : String} {a : α} :
    GoodOut u n d (pure a : Out α) :=
  fun e he => absurd he (List.not_mem_nil e)

theorem goodOut_jsThrow {α : Type} {u n d msg : String} :
    GoodOut u n d (jsThrow msg : Out α) :=
  fun e he => absurd he (List.not_mem_nil e)

theorem goodOut_hreq {α : Type} {u n d : String} {env : Env} {m url b : String} {r : α} :
    GoodOut u n d (hreq env m url b r) := by
  intro e he
  unfold hreq at he
  split at he <;> simp at he
  · rcases he with h | h <;> subst h <;> trivial
  · subst he; trivial

theorem goodOut_bind {α β : Type} {u n d : String} {x : Out α} {f : α → Out β}
    (hx : GoodOut u n d x) (hf : ∀ a, GoodOut u n d (f a)) :
    GoodOut u n d (x >>= f) := by
  intro e he
  rw [Out.trace_bind] at he
  rcases List.mem_append.mp he with h | h
  · exact hx e h
  · cases hr : x.res with
    | ok a =>
      simp only [hr] at h
      exact hf a e h
    | error er =>
      simp only [hr] at h
      exact absurd h (List.not_mem_nil e)

theorem goodOut_appendToDataset {u n d : String} {env : Env} {csv dsid : String} :
    GoodOut u n d (appendToDataset env csv dsid) := by
  unfold appendToDataset
  exact goodOut_bind goodOut_hreq fun a =>
    goodOut_bind goodOut_hreq fun b =>
      goodOut_bind goodOut_hreq fun c => goodOut_pure

theorem goodOut_tryFlush {u n d : String} (env : Env) {batch : List String}
    (hb : ∀ l ∈ batch, GoodLine u n d l) : GoodOut u n d (tryFlush env batch) := by
  have haux : ∀ r : Out Unit, GoodOut u n d r → GoodOut u n d (tryFlushAux batch r) := by
    intro r hr e he
    unfold tryFlushAux at he
    split at he <;> simp at he <;>
      rcases he with h | h | h
    · subst h; exact hb
    · exact hr e h
    · subst h; exact hb
    · subst h; exact hb
    · exact hr e h
    · subst h; trivial
  exact haux _ goodOut_appendToDataset

theorem goodOut_logLoop {u n d : String} (env : Env) (lineF : String → String)
    (hline : ∀ id, GoodLine u n d (lineF id)) :
    ∀ (ids batch : List String), (∀ l ∈ batch, GoodLine u n d l) →
      GoodOut u n d (logLoop env lineF batch ids) := by
  intro ids
  induction ids with
  | nil =>
    intro batch hb
    unfold logLoop
    split
    · exact goodOut_pure
    · exact goodOut_tryFlush env hb
  | cons id rest ih =>
    intro batch hb
    have hb2 : ∀ l ∈ batch ++ [lineF id], GoodLine u n d l := by
      intro l hl
      rcases List.mem_append.mp hl with h | h
      · exact hb l h
      · rcases List.mem_singleton.mp h with rfl
        exact hline id
    unfold logLoop
    split
    · exact goodOut_bind (goodOut_tryFlush env hb2) fun a => ih [] (by simp)
    · exact ih (batch ++ [lineF id]) hb2

theorem goodOut_logTransfers {u n : String} (env : Env) (t no : String)
    (ids : List String) {st : String}
    (hst : st = "TRANSFERRED" ∨ st = "NOT_TRANSFERRED") :
    GoodOut u n (logDate env.now) (logTransfers env u n t ids st no) := by
  unfold logTransfers
  exact goodOut_logLoop env _ (fun id => ⟨t, id, st, no, hst, rfl⟩) ids [] (by simp)

theorem goodOut_logT {u n : String} {env : Env} {t no : String} {ids : List String} :
    GoodOut u n (logDate env.now) (logTransfers env u n t ids "TRANSFERRED" no) :=
  goodOut_logTransfers env t no ids (Or.inl rfl)

theorem goodOut_logNT {u n : String} {env : Env} {t no : String} {ids : List String} :
    GoodOut u n (logDate env.now) (logTransfers env u n t ids "NOT_TRANSFERRED" no) :=
  goodOut_logTransfers env t no ids (Or.inr rfl)

theorem goodOut_fireAndForget {α : Type} {u n d : String} {x : Out α}
    (hx : GoodOut u n d x) : GoodOut u n d (fireAndForget x) := hx

theorem goodOut_promiseAll {u n d : String} {xs : List (Out Unit)}
    (h : ∀ x ∈ xs, GoodOut u n d x) : GoodOut u n d (promiseAll xs) := by
  intro e he
  unfold promiseAll at he
  simp only at he
  rcases List.mem_flatten.mp he with ⟨tr, htr, hetr⟩
  rcases List.mem_map.mp htr with ⟨x, hx, rfl⟩
  exact h x hx e hetr

theorem good_getUserName {u n d : String} {env : Env} {uid : String} :
    GoodOut u n d (getUserName env uid) := goodOut_hreq

theorem good_datasetsLoop {u n d : String} (env : Env) (uid : String) :
    ∀ (fuel offset : Nat), GoodOut u n d (datasetsLoop env uid fuel offset) := by
  intro fuel
  induction fuel with
  | zero => intro offset; exact goodOut_mk_nil
  | succ f ih =>
    intro offset
    unfold datasetsLoop
    refine goodOut_bind goodOut_hreq fun page => ?_
    split
    · split
      · exact goodOut_pure
      · exact goodOut_bind (ih _) fun rest => goodOut_pure
    · exact goodOut_pure

theorem good_alertsLoop {u n d : String} (env : Env) (uid : String) :
    ∀ (fuel offset : Nat), GoodOut u n d (alertsLoop env uid fuel offset) := by
  intro fuel
  induction fuel with
  | zero => intro offset; exact goodOut_mk_nil
  | succ f ih =>
    intro offset
    unfold alertsLoop
    refine goodOut_bind goodOut_hreq fun page => ?_
    split
    · split
      · exact goodOut_pure
      · exact goodOut_bind (ih _) fun rest => goodOut_pure
    · exact goodOut_pure

theorem good_workflowsLoop {u n d : String} (env : Env) (uid : String) :
    ∀ (fuel offset : Nat), GoodOut u n d (workflowsLoop env uid fuel offset) := by
  intro fuel
  induction fuel with
  | zero => intro offset; exact goodOut_mk_nil
  | succ f ih =>
    intro offset
    unfold workflowsLoop
    refine goodOut_bind goodOut_hreq fun page => ?_
    split
    · split
      · exact goodOut_pure
      · exact goodOut_bind (ih _) fun rest => goodOut_pure
    · exact goodOut_pure

theorem good_taskCenterLoop {u n d : String} (env : Env) (uid : String) :
    ∀ (fuel offset : Nat), GoodOut u n d (taskCenterLoop env uid fuel offset) := by
  intro fuel
  induction fuel with
  | zero => intro offset; exact goodOut_mk_nil
  | succ f ih =>
    intro offset
    unfold taskCenterLoop
    refine goodOut_bind goodOut_hreq fun page => ?_
    split
    · split
      · exact goodOut_pure
      · exact goodOut_bind (ih _) fun rest => goodOut_pure
    · exact goodOut_pure

theorem good_accountsLoop {u n d : String} (env : Env) (uid : String) :
    ∀ (fuel offset : Nat), GoodOut u n d (accountsLoop env uid fuel offset) := by
  intro fuel
  induction fuel with
  | zero => intro offset; exact goodOut_mk_nil
  | succ f ih =>
    intro offset
    unfold accountsLoop
    refine goodOut_bind goodOut_hreq fun page => ?_
    split
    · split
      · exact goodOut_pure
      · exact goodOut_bind (ih _) fun rest => goodOut_pure
    · exact goodOut_pure

theorem good_workspacesLoop {u n d : String} (env : Env) (uid : String) :
    ∀ (fuel offset : Nat), GoodOut u n d (workspacesLoop env uid fuel offset) := by
  intro fuel
  induction fuel with
  | zero => intro offset; exact goodOut_mk_nil
  | succ f ih =>
    intro offset
    unfold workspacesLoop
    refine goodOut_bind goodOut_hreq fun page => ?_
    split
    · split
      · exact goodOut_pure
      · exact goodOut_bind (ih _) fun rest => goodOut_pure
    · exact goodOut_pure

theorem good_packagesLoop {u n d : String} (env : Env) (uid : String) :
    ∀ (fuel offset : Nat), GoodOut u n d (packagesLoop env uid fuel offset) := by
  intro fuel
  induction fuel with
  | zero => intro offset; exact goodOut_mk_nil
  | succ f ih =>
    intro offset
    unfold packagesLoop
    refine goodOut_bind goodOut_hreq fun page => ?_
    split
    · split
      · exact goodOut_pure
      · exact goodOut_bind (ih _) fun rest => goodOut_pure
    · exact goodOut_pure

theorem good_filesetsLoop {u n d : String} (env : Env) (uid : String) :
    ∀ (fuel offset : Nat), GoodOut u n d (filesetsLoop env uid fuel offset) := by
  intro fuel
  induction fuel with
  | zero => intro offset; exact goodOut_mk_nil
  | succ f ih =>
    intro offset
    unfold filesetsLoop
    refine goodOut_bind goodOut_hreq fun page => ?_
    split
    · split
      · exact goodOut_pure
      · exact goodOut_bind (ih _) fun rest => goodOut_pure
    · exact goodOut_pure

theorem good_reposLoop {u n d : String} (env : Env) (uid : String) :
    ∀ (fuel offset : Nat), GoodOut u n d (reposLoop env uid fuel offset) := by
  intro fuel
  induction fuel with
  | zero => intro offset; exact goodOut_mk_nil
  | succ f ih =>
    intro offset
    unfold reposLoop
    refine goodOut_bind goodOut_hreq fun page => ?_
    split
    · split
      · exact goodOut_pure
      · exact goodOut_bind (ih _) fun rest => goodOut_pure
    · exact goodOut_pure

theorem good_aiModelsLoop {u n d : String} (env : Env) (uid : String) :
    ∀ (fuel offset : Nat), GoodOut u n d (aiModelsLoop env uid fuel offset) := by
  intro fuel
  induction fuel with
  | zero => intro offset; exact goodOut_mk_nil
  | succ f ih =>
    intro offset
    unfold aiModelsLoop
    refine goodOut_bind goodOut_hreq fun page => ?_
    split
    · split
      · exact goodOut_pure
      · exact goodOut_bind (ih _) fun rest => goodOut_pure
    · exact goodOut_pure

theorem good_aiProjectsLoop {u n d : String} (env : Env) (uid : String) :
    ∀ (fuel offset : Nat), GoodOut u n d (aiProjectsLoop env uid fuel offset) := by
  intro fuel
  induction fuel with
  | zero => intro offset; exact goodOut_mk_nil
  | succ f ih =>
    intro offset
    unfold aiProjectsLoop
    refine goodOut_bind goodOut_hreq fun page => ?_
    split
    · split
      · exact goodOut_pure
      · exact goodOut_bind (ih _) fun rest => goodOut_pure
    · exact goodOut_pure

theorem good_subscriptionsLoop {u n d : String} (env : Env) :
    ∀ (fuel : Nat), GoodOut u n d (subscriptionsLoop env fuel) := by
  intro fuel
  induction fuel with
  | zero => exact goodOut_mk_nil
  | succ f ih =>
    unfold subscriptionsLoop
    refine goodOut_bind goodOut_hreq fun page => ?_
    split
    · split
      · exact goodOut_pure
      · exact goodOut_bind ih fun rest => goodOut_pure
    · exact goodOut_pure

theorem good_projectsLoop {u n d : String} (env : Env) (uid : String) :
    ∀ (fuel offset : Nat), GoodOut u n d (projectsLoop env uid fuel offset) := by
  intro fuel offset
  cases fuel with
  | zero => exact goodOut_mk_nil
  | succ f =>
    unfold projectsLoop
    refine goodOut_bind goodOut_hreq fun page => ?_
    split
    · exact goodOut_jsThrow
    · exact goodOut_pure

theorem good_datasetsMutLoop {u n d : String} (env : Env) (nid userName : String) :
    ∀ l : List Dataset, GoodOut u n d (datasetsMutLoop env nid userName l) := by
  intro l
  induction l with
  | nil => exact goodOut_pure
  | cons ds rest ih =>
    unfold datasetsMutLoop
    refine goodOut_bind goodOut_hreq fun a => ?_
    refine goodOut_bind ?_ fun tags2 => goodOut_bind goodOut_hreq fun b => ih
    split
    · exact goodOut_jsThrow
    · exact goodOut_pure

theorem good_alertsMutLoop {u n d : String} (env : Env) (nid : String) :
    ∀ l : List String, GoodOut u n d (alertsMutLoop env nid l) := by
  intro l
  induction l with
  | nil => exact goodOut_pure
  | cons a rest ih =>
    unfold alertsMutLoop
    exact goodOut_bind goodOut_hreq fun b => ih

theorem good_workflowsMutLoop {u n d : String} (env : Env) (nid : String) :
    ∀ l : List String, GoodOut u n d (workflowsMutLoop env nid l) := by
  intro l
  induction l with
  | nil => exact goodOut_pure
  | cons a rest ih =>
    unfold workflowsMutLoop
    exact goodOut_bind goodOut_hreq fun b => ih

theorem good_taskCenterMutLoop {u n d : String} (env : Env) (nid : String) :
    ∀ l : List TaskRef, GoodOut u n d (taskCenterMutLoop env nid l) := by
  intro l
  induction l with
  | nil => exact goodOut_pure
  | cons a rest ih =>
    unfold taskCenterMutLoop
    exact goodOut_bind goodOut_hreq fun b =>
      goodOut_bind ih fun ids => goodOut_pure

theorem good_pagesBulkLoop {u n d : String} (env : Env) (uid nid : String)
    (pages : List String) : ∀ k : Nat, GoodOut u n d (pagesBulkLoop env uid nid pages k) := by
  intro k
  induction k with
  | zero => exact goodOut_pure
  | succ m ih =>
    unfold pagesBulkLoop
    exact goodOut_bind goodOut_hreq fun a => goodOut_bind goodOut_hreq fun b => ih

theorem good_reportsMutLoop {u n d : String} (env : Env) (nid : String) :
    ∀ l : List String, GoodOut u n d (reportsMutLoop env nid l) := by
  intro l
  induction l with
  | nil => exact goodOut_pure
  | cons a rest ih =>
    unfold reportsMutLoop
    exact goodOut_bind goodOut_hreq fun b => goodOut_bind goodOut_hreq fun c => ih

theorem good_getCurrentPeriod {u n d : String} (env : Env) :
    GoodOut u n d (getCurrentPeriod env) := by
  unfold getCurrentPeriod
  refine goodOut_bind goodOut_hreq fun periods => ?_
  split
  · exact goodOut_pure
  · exact goodOut_jsThrow

theorem good_goalsMutLoop {u n d : String} (env : Env) (nid : String) :
    ∀ l : List String, GoodOut u n d (goalsMutLoop env nid l) := by
  intro l
  induction l with
  | nil => exact goodOut_pure
  | cons a rest ih =>
    unfold goalsMutLoop
    exact goodOut_bind goodOut_hreq fun b => ih

theorem good_collectionsMutLoop {u n d : String} (env : Env) (nid : String) :
    ∀ l : List String, GoodOut u n d (collectionsMutLoop env nid l) := by
  intro l
  induction l with
  | nil => exact goodOut_pure
  | cons a rest ih =>
    unfold collectionsMutLoop
    exact goodOut_bind goodOut_hreq fun b => ih

theorem good_collectionsLoop {u n d : String} (env : Env) (uid nid : String) :
    ∀ (fuel pageNumber : Nat), GoodOut u n d (collectionsLoop env uid nid fuel pageNumber) := by
  intro fuel pageNumber
  cases fuel with
  | zero => exact goodOut_mk_nil
  | succ f =>
    unfold collectionsLoop
    refine goodOut_bind goodOut_hreq fun page => ?_
    split
    · exact goodOut_bind (good_collectionsMutLoop env nid page) fun a => goodOut_jsThrow
    · exact goodOut_pure

theorem good_accountsMutLoop {u n d : String} (env : Env) (uid nid : String) :
    ∀ l : List String, GoodOut u n d (accountsMutLoop env uid nid l) := by
  intro l
  induction l with
  | nil => exact goodOut_pure
  | cons a rest ih =>
    unfold accountsMutLoop
    exact goodOut_bind goodOut_hreq fun b => goodOut_bind goodOut_hreq fun c => ih

theorem good_workspacesMutLoop {u n d : String} (env : Env) (nid : String) :
    ∀ l : List String, GoodOut u n d (workspacesMutLoop env nid l) := by
  intro l
  induction l with
  | nil => exact goodOut_pure
  | cons a rest ih =>
    unfold workspacesMutLoop
    exact goodOut_bind goodOut_hreq fun b => ih

theorem good_packagesMutLoop {u n d : String} (env : Env) (nid : String) :
    ∀ l : List String, GoodOut u n d (packagesMutLoop env nid l) := by
  intro l
  induction l with
  | nil => exact goodOut_pure
  | cons a rest ih =>
    unfold packagesMutLoop
    exact goodOut_bind goodOut_hreq fun b => ih

theorem good_filesetsMutLoop {u n d : String} (env : Env) (nid : String) :
    ∀ l : List String, GoodOut u n d (filesetsMutLoop env nid l) := by
  intro l
  induction l with
  | nil => exact goodOut_pure
  | cons a rest ih =>
    unfold filesetsMutLoop
    exact goodOut_bind goodOut_hreq fun b => ih

theorem good_pubsDetailLoop {u n d : String} (env : Env) (uid : String) :
    ∀ l : List String, GoodOut u n d (pubsDetailLoop env uid l) := by
  intro l
  induction l with
  | nil => exact goodOut_pure
  | cons a rest ih =>
    unfold pubsDetailLoop
    exact goodOut_bind goodOut_hreq fun b => goodOut_bind ih fun ids => goodOut_pure

theorem good_subscriptionsMutLoop {u n d : String} (env : Env) (uid nid : String) :
    ∀ l : List SubSummary, GoodOut u n d (subscriptionsMutLoop env uid nid l) := by
  intro l
  induction l with
  | nil => exact goodOut_pure
  | cons a rest ih =>
    unfold subscriptionsMutLoop
    refine goodOut_bind goodOut_hreq fun share => ?_
    split
    · exact goodOut_bind goodOut_hreq fun b => goodOut_bind ih fun ids => goodOut_pure
    · exact ih

theorem good_reposMutLoop {u n d : String} (env : Env) (nid : String) :
    ∀ l : List String, GoodOut u n d (reposMutLoop env nid l) := by
  intro l
  induction l with
  | nil => exact goodOut_pure
  | cons a rest ih =>
    unfold reposMutLoop
    exact goodOut_bind goodOut_hreq fun b => ih

theorem good_approvalsMutLoop {u n d : String} (env : Env) (nid : String) :
    ∀ l : List ApprovalRec, GoodOut u n d (approvalsMutLoop env nid l) := by
  intro l
  induction l with
  | nil => exact goodOut_pure
  | cons a rest ih =>
    unfold approvalsMutLoop
    refine goodOut_bind ?_ fun b => ih
    split
    · exact goodOut_bind goodOut_hreq fun c => goodOut_pure
    · exact goodOut_pure

theorem good_designsMutLoop {u n d : String} (env : Env) (uid nid : String) :
    ∀ l : List DesignRec, GoodOut u n d (designsMutLoop env uid nid l) := by
  intro l
  induction l with
  | nil => exact goodOut_pure
  | cons a rest ih =>
    unfold designsMutLoop
    refine goodOut_bind ?_ fun ids => goodOut_bind ih fun r2 => goodOut_pure
    split
    · exact goodOut_bind goodOut_hreq fun c => goodOut_pure
    · exact goodOut_pure

theorem good_aiModelsMutLoop {u n d : String} (env : Env) (nid : String) :
    ∀ l : List String, GoodOut u n d (aiModelsMutLoop env nid l) := by
  intro l
  induction l with
  | nil => exact goodOut_pure
  | cons a rest ih =>
    unfold aiModelsMutLoop
    exact goodOut_bind goodOut_hreq fun b => ih

theorem good_aiProjectsMutLoop {u n d : String} (env : Env) (nid : String) :
    ∀ l : List String, GoodOut u n d (aiProjectsMutLoop env nid l) := by
  intro l
  induction l with
  | nil => exact goodOut_pure
  | cons a rest ih =>
    unfold aiProjectsMutLoop
    exact goodOut_bind goodOut_hreq fun b => ih

theorem good_tasksMutLoop {u n d : String} (env : Env) (uid nid : String) :
    ∀ l : List TaskRec, GoodOut u n d (tasksMutLoop env uid nid l) := by
  intro l
  induction l with
  | nil => exact goodOut_pure
  | cons t rest ih =>
    intro e he
    unfold tasksMutLoop at he
    rcases List.mem_append.mp he with h | h
    · exact goodOut_hreq e h
    · exact ih e h

theorem good_projectsMutLoop {u n d : String} (env : Env) (uid nid : String) :
    ∀ l : List ProjectRec, GoodOut u n d (projectsMutLoop env uid nid l) := by
  intro l
  induction l with
  | nil => exact goodOut_pure
  | cons p rest ih =>
    unfold projectsMutLoop
    refine goodOut_bind goodOut_hreq fun tr => ?_
    refine goodOut_bind ?_ fun a => ?_
    · split
      · exact goodOut_bind (good_tasksMutLoop env uid nid tr) fun c => goodOut_pure
      · exact goodOut_pure
    · refine goodOut_bind ?_ fun b => goodOut_bind ih fun pair => goodOut_pure
      split
      · exact goodOut_bind goodOut_hreq fun c => goodOut_pure
      · exact goodOut_pure

theorem good_dataflowsLoop {u n : String} (env : Env) (userName : String) :
    ∀ (fuel offset : Nat),
      GoodOut u n (logDate env.now) (dataflowsLoop env u n userName fuel offset) := by
  intro fuel
  induction fuel with
  | zero => intro offset; exact goodOut_mk_nil
  | succ f ih =>
    intro offset
    unfold dataflowsLoop
    refine goodOut_bind goodOut_hreq fun page => ?_
    split
    · refine goodOut_bind goodOut_logT fun a => ?_
      refine goodOut_bind goodOut_hreq fun b => ?_
      refine goodOut_bind goodOut_hreq fun c => ?_
      split
      · exact goodOut_pure
      · exact ih _
    · exact goodOut_pure

theorem good_cardsLoop {u n : String} (env : Env) :
    ∀ (fuel offset : Nat),
      GoodOut u n (logDate env.now) (cardsLoop env u n fuel offset) := by
  intro fuel
  induction fuel with
  | zero => intro offset; exact goodOut_mk_nil
  | succ f ih =>
    intro offset
    unfold cardsLoop
    refine goodOut_bind goodOut_hreq fun page => ?_
    split
    · refine goodOut_bind goodOut_hreq fun a => ?_
      refine goodOut_bind goodOut_hreq fun b => ?_
      refine goodOut_bind goodOut_logT fun c => ?_
      split
      · exact goodOut_pure
      · exact ih _
    · exact goodOut_pure

theorem good_appStudioLoop {u n : String} (env : Env) :
    ∀ (fuel skip : Nat),
      GoodOut u n (logDate env.now) (appStudioLoop env u n fuel skip) := by
  intro fuel
  induction fuel with
  | zero => intro skip; exact goodOut_mk_nil
  | succ f ih =>
    intro skip
    unfold appStudioLoop
    refine goodOut_bind goodOut_hreq fun page => ?_
    split
    · refine goodOut_bind ?_ fun a => ?_
      · split
        · exact goodOut_bind goodOut_hreq fun b =>
            goodOut_bind goodOut_hreq fun c => goodOut_logT
        · exact goodOut_pure
      · split
        · exact goodOut_pure
        · exact ih _
    · exact goodOut_pure

theorem good_pagesLoop {u n : String} (env : Env) :
    ∀ (fuel offset : Nat),
      GoodOut u n (logDate env.now) (pagesLoop env u n fuel offset) := by
  intro fuel
  induction fuel with
  | zero => intro offset; exact goodOut_mk_nil
  | succ f ih =>
    intro offset
    unfold pagesLoop
    refine goodOut_bind goodOut_hreq fun page => ?_
    split
    · refine goodOut_bind (good_pagesBulkLoop env u n page page.length) fun a => ?_
      refine goodOut_bind goodOut_logT fun b => ?_
      split
      · exact goodOut_pure
      · exact ih _
    · exact goodOut_pure

theorem good_groupsLoop {u n : String} (env : Env) :
    ∀ (fuel offset : Nat),
      GoodOut u n (logDate env.now) (groupsLoop env u n fuel offset) := by
  intro fuel
  induction fuel with
  | zero => intro offset; exact goodOut_mk_nil
  | succ f ih =>
    intro offset
    unfold groupsLoop
    refine goodOut_bind goodOut_hreq fun page => ?_
    split
    · refine goodOut_bind ?_ fun a => ?_
      · split
        · exact goodOut_bind goodOut_hreq fun b => goodOut_logT
        · exact goodOut_pure
      · split
        · exact goodOut_pure
        · exact ih _
    · exact goodOut_pure

theorem good_functionsLoop {u n : String} (env : Env) :
    ∀ (fuel offset : Nat),
      GoodOut u n (logDate env.now) (functionsLoop env u n fuel offset) := by
  intro fuel
  induction fuel with
  | zero => intro offset; exact goodOut_mk_nil
  | succ f ih =>
    intro offset
    unfold functionsLoop
    refine goodOut_bind goodOut_hreq fun resp => ?_
    split
    · refine goodOut_bind goodOut_hreq fun a => ?_
      refine goodOut_bind goodOut_logT fun b => ?_
      refine goodOut_bind goodOut_hreq fun c => ?_
      refine goodOut_bind goodOut_logT fun e2 => ?_
      split
      · exact ih _
      · exact goodOut_pure
    · exact goodOut_pure

theorem good_customAppsLoop {u n : String} (env : Env) :
    ∀ (fuel offset : Nat) (appIds : List String),
      GoodOut u n (logDate env.now) (customAppsLoop env u n fuel offset appIds) := by
  intro fuel
  induction fuel with
  | zero => intro offset appIds; exact goodOut_mk_nil
  | succ f ih =>
    intro offset appIds
    unfold customAppsLoop
    refine goodOut_bind goodOut_hreq fun page => ?_
    split
    · refine goodOut_bind (good_designsMutLoop env u n page) fun newIds => ?_
      refine goodOut_bind goodOut_logT fun a => ?_
      split
      · exact goodOut_pure
      · exact ih _ _
    · exact goodOut_pure

theorem good_transferDatasets {u n : String} (env : Env) (fuel : Nat) :
    GoodOut u n (logDate env.now) (transferDatasets env fuel u n) := by
  unfold transferDatasets
  refine goodOut_bind (good_datasetsLoop env u fuel 0) fun datasets => ?_
  refine goodOut_bind good_getUserName fun userName => ?_
  exact goodOut_bind (good_datasetsMutLoop env n userName datasets) fun a => goodOut_logT

theorem good_transferDataflows {u n : String} (env : Env) (fuel : Nat) :
    GoodOut u n (logDate env.now) (transferDataflows env fuel u n) := by
  unfold transferDataflows
  exact goodOut_bind good_getUserName fun userName =>
    good_dataflowsLoop env userName fuel 0

theorem good_transferCards {u n : String} (env : Env) (fuel : Nat) :
    GoodOut u n (logDate env.now) (transferCards env fuel u n) :=
  good_cardsLoop env fuel 0

theorem good_transferAlerts {u n : String} (env : Env) (fuel : Nat) :
    GoodOut u n (logDate env.now) (transferAlerts env fuel u n) := by
  unfold transferAlerts
  refine goodOut_bind (good_alertsLoop env u fuel 0) fun alerts => ?_
  exact goodOut_bind (good_alertsMutLoop env n alerts) fun a => goodOut_logT

theorem good_transferWorkflows {u n : String} (env : Env) (fuel : Nat) :
    GoodOut u n (logDate env.now) (transferWorkflows env fuel u n) := by
  unfold transferWorkflows
  refine goodOut_bind (good_workflowsLoop env u fuel 0) fun workflows => ?_
  exact goodOut_bind (good_workflowsMutLoop env n workflows) fun a => goodOut_logT

theorem good_transferTaskCenterTasks {u n : String} (env : Env) (fuel : Nat) :
    GoodOut u n (logDate env.now) (transferTaskCenterTasks env fuel u n) := by
  unfold transferTaskCenterTasks
  refine goodOut_bind (good_taskCenterLoop env u fuel 0) fun tasks => ?_
  exact goodOut_bind (good_taskCenterMutLoop env n tasks) fun ids => goodOut_logT

theorem good_transferAppStudioApps {u n : String} (env : Env) (fuel : Nat) :
    GoodOut u n (logDate env.now) (transferAppStudioApps env fuel u n) :=
  good_appStudioLoop env fuel 0

theorem good_transferPages {u n : String} (env : Env) (fuel : Nat) :
    GoodOut u n (logDate env.now) (transferPages env fuel u n) :=
  good_pagesLoop env fuel 0

theorem good_transferScheduledReports {u n : String} (env : Env) :
    GoodOut u n (logDate env.now) (transferScheduledReports env u n) := by
  unfold transferScheduledReports
  refine goodOut_bind goodOut_hreq fun reports => ?_
  exact goodOut_bind (good_reportsMutLoop env n reports) fun a => goodOut_logT

theorem good_transferGoals {u n : String} (env : Env) (periodIdStr : String) :
    GoodOut u n (logDate env.now) (transferGoals env u n periodIdStr) := by
  unfold transferGoals
  refine goodOut_bind goodOut_hreq fun goals => ?_
  split
  · exact goodOut_bind (good_goalsMutLoop env n goals) fun a => goodOut_logT
  · exact goodOut_pure

theorem good_transferGroups {u n : String} (env : Env) (fuel : Nat) :
    GoodOut u n (logDate env.now) (transferGroups env fuel u n) :=
  good_groupsLoop env fuel 0

theorem good_transferAppDbCollections {u n : String} (env : Env) (fuel : Nat) :
    GoodOut u n (logDate env.now) (transferAppDbCollections env fuel u n) :=
  good_collectionsLoop env u n fuel 1

theorem good_transferFunctions {u n : String} (env : Env) (fuel : Nat) :
    GoodOut u n (logDate env.now) (transferFunctions env fuel u n) :=
  good_functionsLoop env fuel 0

theorem good_transferAccounts {u n : String} (env : Env) (fuel : Nat) :
    GoodOut u n (logDate env.now) (transferAccounts env fuel u n) := by
  unfold transferAccounts
  refine goodOut_bind (good_accountsLoop env u fuel 0) fun ids => ?_
  exact goodOut_bind (good_accountsMutLoop env u n ids) fun a => goodOut_logT

theorem good_transferJupyterWorkspaces {u n : String} (env : Env) (fuel : Nat) :
    GoodOut u n (logDate env.now) (transferJupyterWorkspaces env fuel u n) := by
  unfold transferJupyterWorkspaces
  refine goodOut_bind (good_workspacesLoop env u fuel 0) fun ids => ?_
  exact goodOut_bind (good_workspacesMutLoop env n ids) fun a => goodOut_logT

theorem good_transferCodeEnginePackages {u n : String} (env : Env) (fuel : Nat) :
    GoodOut u n (logDate env.now) (transferCodeEnginePackages env fuel u n) := by
  unfold transferCodeEnginePackages
  refine goodOut_bind (good_packagesLoop env u fuel 0) fun ids => ?_
  exact goodOut_bind (good_packagesMutLoop env n ids) fun a => goodOut_logT

theorem good_transferFilesets {u n : String} (env : Env) (fuel : Nat) :
    GoodOut u n (logDate env.now) (transferFilesets env fuel u n) := by
  unfold transferFilesets
  refine goodOut_bind (good_filesetsLoop env u fuel 0) fun ids => ?_
  exact goodOut_bind (good_filesetsMutLoop env n ids) fun a => goodOut_logT

theorem good_getPublications {u n : String} (env : Env) :
    GoodOut u n (logDate env.now) (getPublications env u n) := by
  unfold getPublications
  refine goodOut_bind goodOut_hreq fun pubs => ?_
  refine goodOut_bind ?_ fun publications => goodOut_logNT
  split
  · exact good_pubsDetailLoop env u pubs
  · exact goodOut_pure

theorem good_transferSubscriptions {u n : String} (env : Env) (fuel : Nat) :
    GoodOut u n (logDate env.now) (transferSubscriptions env fuel u n) := by
  unfold transferSubscriptions
  refine goodOut_bind (good_subscriptionsLoop env fuel) fun subs => ?_
  exact goodOut_bind (good_subscriptionsMutLoop env u n subs) fun ids => goodOut_logT

theorem good_transferRepositories {u n : String} (env : Env) (fuel : Nat) :
    GoodOut u n (logDate env.now) (transferRepositories env fuel u n) := by
  unfold transferRepositories
  refine goodOut_bind (good_reposLoop env u fuel 0) fun ids => ?_
  exact goodOut_bind (good_reposMutLoop env n ids) fun a => goodOut_logT

theorem good_transferApprovals {u n : String} (env : Env) :
    GoodOut u n (logDate env.now) (transferApprovals env u n) := by
  unfold transferApprovals
  refine goodOut_bind goodOut_hreq fun edges => ?_
  refine goodOut_bind (good_approvalsMutLoop env n _) fun a => ?_
  exact goodOut_bind goodOut_logT fun b => goodOut_logNT

theorem good_transferCustomApps {u n : String} (env : Env) (fuel : Nat) :
    GoodOut u n (logDate env.now) (transferCustomApps env fuel u n) :=
  good_customAppsLoop env fuel 0 []

theorem good_transferAiModels {u n : String} (env : Env) (fuel : Nat) :
    GoodOut u n (logDate env.now) (transferAiModels env fuel u n) := by
  unfold transferAiModels
  refine goodOut_bind (good_aiModelsLoop env u fuel 0) fun models => ?_
  exact goodOut_bind (good_aiModelsMutLoop env n models) fun a => goodOut_logT

theorem good_transferAiProjects {u n : String} (env : Env) (fuel : Nat) :
    GoodOut u n (logDate env.now) (transferAiProjects env fuel u n) := by
  unfold transferAiProjects
  refine goodOut_bind (good_aiProjectsLoop env u fuel 0) fun projects => ?_
  exact goodOut_bind (good_aiProjectsMutLoop env n projects) fun a => goodOut_logT

theorem good_transferProjectsAndTasks {u n : String} (env : Env) (fuel : Nat) :
    GoodOut u n (logDate env.now) (transferProjectsAndTasks env fuel u n) := by
  unfold transferProjectsAndTasks
  refine goodOut_bind (good_projectsLoop env u fuel 0) fun projects => ?_
  refine goodOut_bind (good_projectsMutLoop env u n projects) fun pair => ?_
  exact goodOut_bind goodOut_logT fun a => goodOut_logT

theorem good_transferContent {u n : String} (env : Env) (fuel : Nat) :
    GoodOut u n (logDate env.now) (transferContent env fuel u n) := by
  unfold transferContent
  refine goodOut_promiseAll ?_
  intro x hx
  simp only [List.mem_cons, List.not_mem_nil, or_false] at hx
  rcases hx with rfl | rfl | rfl | rfl | rfl | rfl | rfl | rfl | rfl | rfl | rfl | rfl | rfl |
    rfl | rfl | rfl | rfl | rfl | rfl | rfl | rfl | rfl | rfl | rfl | rfl
  · exact good_transferDatasets env fuel
  · exact good_transferDataflows env fuel
  · exact good_transferCards env fuel
  · exact good_transferAlerts env fuel
  · exact good_transferWorkflows env fuel
  · exact good_transferTaskCenterTasks env fuel
  · exact good_transferAppStudioApps env fuel
  · exact good_transferPages env fuel
  · exact good_transferScheduledReports env
  · exact goodOut_bind (goodOut_fireAndForget (good_getCurrentPeriod env)) fun a =>
      good_transferGoals env "[object Promise]"
  · exact good_transferGroups env fuel
  · exact good_transferAppDbCollections env fuel
  · exact good_transferFunctions env fuel
  · exact good_transferAccounts env fuel
  · exact good_transferJupyterWorkspaces env fuel
  · exact good_transferCodeEnginePackages env fuel
  · exact good_transferFilesets env fuel
  · exact good_getPublications env
  · exact good_transferSubscriptions env fuel
  · exact good_transferRepositories env fuel
  · exact good_transferApprovals env
  · exact good_transferCustomApps env fuel
  · exact good_transferAiModels env fuel
  · exact good_transferAiProjects env fuel
  · exact good_transferProjectsAndTasks env fuel

/-- C8: every audit line carried by a flush in any transferContent run is the
seven-field serialization userId,newOwnerId,type,id,date,status,notes produced
by auditLine, in that order, with status TRANSFERRED or NOT_TRANSFERRED; the
date field is the seconds-precision ISO-8601 rendering of the UTC run clock
(toISOString sliced of its millisecond-and-zone suffix); and auditLine is the
ordered comma join of exactly those seven fields. -/
theorem transferContent_audit_schema (env : Env) (fuel : Nat) (u n : String) :
    (∀ e ∈ (transferContent env fuel u n).trace, GoodEvent u n (logDate env.now) e)
    ∧ logDate env.now = isoSeconds env.now
    ∧ (∀ a b t i d st no : String, auditLine a b t i d st no
        = a ++ "," ++ b ++ "," ++ t ++ "," ++ i ++ "," ++ d ++ "," ++ st ++ "," ++ no) :=
  ⟨good_transferContent env fuel, logDate_eq_isoSeconds env.now,
    fun a b t i d st no => rfl⟩

/-- Witness for C8: the dataset flush event of the two-dataset scenario is in
the trace and carries only well-formed rows. -/
theorem transferContent_audit_schema_witness :
    GoodEvent "42" "99" (logDate baseNow)
      (Event.flush
        [auditLine "42" "99" "DATA_SOURCE" "D1" (logDate baseNow) "TRANSFERRED" "null",
         auditLine "42" "99" "DATA_SOURCE" "D2" (logDate baseNow) "TRANSFERRED" "null"]) :=
  (transferContent_audit_schema env7 3 "42" "99").1 _ (by decide)

--------------------- Unsupported kinds (no mutation) ---------------------

theorem Out.ext {α : Type} {x y : Out α} (ht : x.trace = y.trace)
    (hr : x.res = y.res) : x = y := by
  cases x
  cases y
  cases ht
  cases hr
  rfl

theorem Out.bindEq {α β : Type} (x : Out α) (f : α → Out β) :
    x >>= f = Out.bind x f := rfl

theorem Out.bind_mk_ok {α β : Type} (tr : List Event) (a : α) (f : α → Out β) :
    Out.bind (Out.mk tr (Except.ok a)) f = Out.mk (tr ++ (f a).trace) (f a).res := by
  unfold Out.bind
  simp

theorem Out.bind_mk_error {α β : Type} (tr : List Event) (e : Err) (f : α → Out β) :
    Out.bind (Out.mk tr (Except.error e)) f = Out.mk tr (Except.error e) := by
  unfold Out.bind
  simp

theorem hreq_ok {α : Type} {env : Env} {m url b : String} (r : α)
    (h : env.httpFails m url b = false) :
    hreq env m url b r = Out.mk [Event.req m url b] (Except.ok r) := by
  unfold hreq
  rw [h]
  simp

theorem strHasPrefix_refl (p : String) : strHasPrefix p p = true := by
  simp [strHasPrefix]

theorem strHasPrefix_cat (p x : String) : strHasPrefix p (p ++ x) = true := by
  simp [strHasPrefix, String.data_append]

theorem mutationReqs_append (t1 t2 : List Event) :
    mutationReqs (t1 ++ t2) = mutationReqs t1 ++ mutationReqs t2 :=
  List.filter_append t1 t2

theorem mutationReqs_bind_nil {α β : Type} {x : Out α} {f : α → Out β}
    (hx : mutationReqs x.trace = []) (hf : ∀ a, mutationReqs (f a).trace = []) :
    mutationReqs (x >>= f).trace = [] := by
  rw [Out.trace_bind, mutationReqs_append, hx, List.nil_append]
  cases h : x.res with
  | ok a => simp only [h]; exact hf a
  | error e => simp only [h]; rfl

theorem mutationReqs_hreq_audit {α : Type} (env : Env) (m url b : String) (r : α)
    (hurl : strHasPrefix auditUploadsUrl url = true) :
    mutationReqs (hreq env m url b r).trace = [] := by
  unfold hreq
  split <;> simp [mutationReqs, isMutationReq, hurl]

theorem mutationReqs_appendToDataset (env : Env) (csv : String) :
    mutationReqs (appendToDataset env csv auditDatasetId).trace = [] := by
  unfold appendToDataset
  refine mutationReqs_bind_nil (mutationReqs_hreq_audit env _ _ _ _ (strHasPrefix_refl _))
    fun a => ?_
  refine mutationReqs_bind_nil (mutationReqs_hreq_audit env _ _ _ _ (strHasPrefix_cat _ _))
    fun b => ?_
  exact mutationReqs_bind_nil (mutationReqs_hreq_audit env _ _ _ _ (strHasPrefix_cat _ _))
    fun c => rfl

theorem mutationReqs_tryFlush (env : Env) (batch : List String) :
    mutationReqs (tryFlush env batch).trace = [] := by
  have haux : ∀ r : Out Unit, mutationReqs r.trace = [] →
      mutationReqs (tryFlushAux batch r).trace = [] := by
    intro r hr
    unfold tryFlushAux
    have h1 : isMutationReq (Event.flush batch) = false := rfl
    have h2 : isMutationReq (Event.flushCommitted batch) = false := rfl
    have h3 : isMutationReq (Event.opLog "Logging failed") = false := rfl
    simp only [mutationReqs] at hr
    split <;>
      simp [mutationReqs, List.filter_cons, List.filter_append, h1, h2, h3, hr]
  exact haux _ (mutationReqs_appendToDataset env _)

theorem mutationReqs_logLoop (env : Env) (lineF : String → String) :
    ∀ (ids batch : List String), mutationReqs (logLoop env lineF batch ids).trace = [] := by
  intro ids
  induction ids with
  | nil =>
    intro batch
    unfold logLoop
    split
    · rfl
    · exact mutationReqs_tryFlush env batch
  | cons id rest ih =>
    intro batch
    unfold logLoop
    split
    · exact mutationReqs_bind_nil (mutationReqs_tryFlush env _) fun a => ih []
    · exact ih (batch ++ [lineF id])

theorem mutationReqs_logTransfers (env : Env) (u n t st no : String) (ids : List String) :
    mutationReqs (logTransfers env u n t ids st no).trace = [] :=
  mutationReqs_logLoop env _ ids []

theorem logTransfers_flushes (env : Env) (u n t st no : String) (ids : List String) :
    flushAttempts (logTransfers env u n t ids st no).trace
      = batchesSpec (ids.map fun i => auditLine u n t i (logDate env.now) st no) := by
  have h := logLoop_flushes env
    (fun i => auditLine u n t i (logDate env.now) st no) ids [] (by simp)
  rw [List.nil_append] at h
  exact h

theorem pubsDetailLoop_run {env : Env} (u : String)
    (hf : ∀ m url b, env.httpFails m url b = false) :
    ∀ ps : List String,
      (pubsDetailLoop env u ps).trace
        = ps.map (fun p => Event.req "GET" ("/api/publish/v2/publications/" ++ p) "")
      ∧ (pubsDetailLoop env u ps).res
        = Except.ok (ps.filter (fun p => env.backend.publicationOwner p == u)) := by
  intro ps
  induction ps with
  | nil => exact ⟨rfl, rfl⟩
  | cons p rest ih =>
    have hrec : pubsDetailLoop env u rest
        = Out.mk (rest.map (fun q => Event.req "GET" ("/api/publish/v2/publications/" ++ q) ""))
            (Except.ok (rest.filter (fun q => env.backend.publicationOwner q == u))) :=
      Out.ext ih.1 ih.2
    unfold pubsDetailLoop
    simp only [Out.bindEq]
    rw [hreq_ok _ (hf _ _ _), Out.bind_mk_ok]
    simp only [hrec, Out.bind_mk_ok]
    constructor
    · simp [Out.trace_pure]
    · simp [List.filter_cons, Out.res_pure]

theorem approvalsMutLoop_run {env : Env} (n : String)
    (hf : ∀ m url b, env.httpFails m url b = false) :
    ∀ ps : List ApprovalRec,
      (approvalsMutLoop env n ps).trace
        = (ps.filter (fun a => a.status == "PENDING")).map
            (fun a => Event.req "POST" approvalsUrl
              ("replaceApprovers id=" ++ a.id ++ " version=" ++ a.version ++
                " newApproverId=" ++ n))
      ∧ (approvalsMutLoop env n ps).res = Except.ok () := by
  intro ps
  induction ps with
  | nil => exact ⟨rfl, rfl⟩
  | cons a rest ih =>
    have hrec : approvalsMutLoop env n rest
        = Out.mk ((rest.filter (fun x => x.status == "PENDING")).map
            (fun x => Event.req "POST" approvalsUrl
              ("replaceApprovers id=" ++ x.id ++ " version=" ++ x.version ++
                " newApproverId=" ++ n)))
            (Except.ok ()) :=
      Out.ext ih.1 ih.2
    unfold approvalsMutLoop
    simp only [Out.bindEq]
    by_cases hp : (a.status == "PENDING") = true
    · rw [if_pos hp, hreq_ok _ (hf _ _ _), Out.bind_mk_ok]
      simp only [Out.trace_pure, Out.res_pure, hrec, Out.bind_mk_ok]
      constructor
      · simp [List.filter_cons, hp]
      · trivial
    · rw [if_neg hp]
      have hpure : (pure () : Out Unit) = Out.mk [] (Except.ok ()) := rfl
      rw [hpure, Out.bind_mk_ok]
      simp only [hrec]
      constructor
      · simp [List.filter_cons, hp]
      · trivial

theorem flushAttempts_map_get (ps : List String) :
    flushAttempts (ps.map (fun p =>
      Event.req "GET" ("/api/publish/v2/publications/" ++ p) "")) = [] := by
  induction ps with
  | nil => rfl
  | cons p rest ih => simp [flushAttempts, List.filterMap_cons]

theorem mutationReqs_map_get (ps : List String) :
    mutationReqs (ps.map (fun p =>
      Event.req "GET" ("/api/publish/v2/publications/" ++ p) "")) = [] := by
  induction ps with
  | nil => rfl
  | cons p rest ih => simp [mutationReqs, isMutationReq, List.filter_cons]

theorem flushAttempts_map_replace (n : String) (ps : List ApprovalRec) :
    flushAttempts (ps.map (fun a => Event.req "POST" approvalsUrl
      ("replaceApprovers id=" ++ a.id ++ " version=" ++ a.version ++
        " newApproverId=" ++ n))) = [] := by
  induction ps with
  | nil => rfl
  | cons p rest ih => simp [flushAttempts, List.filterMap_cons]

theorem mutationReqs_map_replace (n : String) (ps : List ApprovalRec) :
    mutationReqs (ps.map (fun a => Event.req "POST" approvalsUrl
      ("replaceApprovers id=" ++ a.id ++ " version=" ++ a.version ++
        " newApproverId=" ++ n)))
      = ps.map (fun a => Event.req "POST" approvalsUrl
          ("replaceApprovers id=" ++ a.id ++ " version=" ++ a.version ++
            " newApproverId=" ++ n)) := by
  induction ps with
  | nil => rfl
  | cons p rest ih =>
    have hp : isMutationReq (Event.req "POST" approvalsUrl
        ("replaceApprovers id=" ++ p.id ++ " version=" ++ p.version ++
          " newApproverId=" ++ n)) = true := rfl
    simp only [mutationReqs] at ih
    simp [mutationReqs, List.filter_cons, hp, ih]

theorem Out.bindB_trace_ok {α β : Type} {x : Out α} {a : α} (f : α → Out β)
    (h : x.res = Except.ok a) : (Out.bind x f).trace = x.trace ++ (f a).trace := by
  unfold Out.bind
  simp only [h]

theorem mutationReqs_hreq_get {α : Type} (env : Env) (url b : String) (r : α) :
    mutationReqs (hreq env "GET" url b r).trace = [] := by
  unfold hreq
  split <;> simp [mutationReqs, isMutationReq, List.filter_cons]

theorem mutationReqs_pubsDetailLoop (env : Env) (u : String) :
    ∀ ps : List String, mutationReqs (pubsDetailLoop env u ps).trace = [] := by
  intro ps
  induction ps with
  | nil => rfl
  | cons p rest ih =>
    unfold pubsDetailLoop
    exact mutationReqs_bind_nil (mutationReqs_hreq_get env _ _ _) fun b =>
      mutationReqs_bind_nil ih fun ids => rfl

theorem getPublications_no_mutation (env : Env) (u n : String) :
    mutationReqs (getPublications env u n).trace = [] := by
  unfold getPublications
  refine mutationReqs_bind_nil (mutationReqs_hreq_get env _ _ _) fun pubs => ?_
  refine mutationReqs_bind_nil ?_ fun publications =>
    mutationReqs_logTransfers env u n "PUBLICATION" "NOT_TRANSFERRED" pubNote publications
  split
  · exact mutationReqs_pubsDetailLoop env u pubs
  · rfl

theorem getPublications_trace {env : Env} {u n : String}
    (hf : ∀ m url b, env.httpFails m url b = false) :
    (getPublications env u n).trace
      = Event.req "GET" "/api/publish/v2/publications" ""
        :: (if env.backend.publications.length > 0 then
              env.backend.publications.map
                (fun p => Event.req "GET" ("/api/publish/v2/publications/" ++ p) "")
            else [])
        ++ (logTransfers env u n "PUBLICATION"
              (env.backend.publications.filter
                (fun p => env.backend.publicationOwner p == u))
              "NOT_TRANSFERRED" pubNote).trace := by
  unfold getPublications
  simp only [Out.bindEq]
  rw [hreq_ok _ (hf _ _ _), Out.bind_mk_ok]
  by_cases hp : env.backend.publications.length > 0
  · rw [if_pos hp, if_pos hp]
    have hd := pubsDetailLoop_run u hf env.backend.publications
    have hdet : pubsDetailLoop env u env.backend.publications
        = Out.mk (env.backend.publications.map
            (fun p => Event.req "GET" ("/api/publish/v2/publications/" ++ p) ""))
            (Except.ok (env.backend.publications.filter
              (fun p => env.backend.publicationOwner p == u))) :=
      Out.ext hd.1 hd.2
    rw [hdet, Out.bind_mk_ok]
    simp
  · rw [if_neg hp, if_neg hp]
    have hnil : env.backend.publications = [] := by
      simpa using List.eq_nil_of_length_eq_zero (by omega)
    have hpure : (pure [] : Out (List String)) = Out.mk [] (Except.ok []) := rfl
    rw [hpure, Out.bind_mk_ok]
    simp [hnil]

theorem transferApprovals_trace {env : Env} {u n : String}
    (hf : ∀ m url b, env.httpFails m url b = false) :
    (transferApprovals env u n).trace
      = Event.req "POST" approvalsUrl ("getFilteredRequests approverId=" ++ u)
        :: ((env.backend.approvalEdges.filter (fun a => a.status == "PENDING")).map
            (fun a => Event.req "POST" approvalsUrl
              ("replaceApprovers id=" ++ a.id ++ " version=" ++ a.version ++
                " newApproverId=" ++ n)))
        ++ (logTransfers env u n "APPROVAL"
            ((env.backend.approvalEdges.filter (fun a => a.status == "PENDING")).map
              ApprovalRec.id) "TRANSFERRED" "null").trace
        ++ (logTransfers env u n "APPROVAL"
            ((env.backend.approvalEdges.filter (fun a => a.status == "SENTBACK")).map
              ApprovalRec.id) "NOT_TRANSFERRED" sentBackNote).trace := by
  unfold transferApprovals
  simp only [Out.bindEq]
  rw [hreq_ok _ (hf _ _ _), Out.bind_mk_ok]
  have hm := approvalsMutLoop_run n hf
    (env.backend.approvalEdges.filter (fun a => a.status == "PENDING"))
  have hmm : (env.backend.approvalEdges.filter (fun a => a.status == "PENDING")).filter
      (fun a => a.status == "PENDING")
      = env.backend.approvalEdges.filter (fun a => a.status == "PENDING") := by
    simp [List.filter_filter]
  rw [hmm] at hm
  have hmut : approvalsMutLoop env n
      (env.backend.approvalEdges.filter (fun a => a.status == "PENDING"))
      = Out.mk ((env.backend.approvalEdges.filter (fun a => a.status == "PENDING")).map
          (fun a => Event.req "POST" approvalsUrl
            ("replaceApprovers id=" ++ a.id ++ " version=" ++ a.version ++
              " newApproverId=" ++ n)))
          (Except.ok ()) :=
    Out.ext hm.1 hm.2
  rw [hmut, Out.bind_mk_ok]
  rw [Out.bindB_trace_ok _ (logTransfers_res env u n "APPROVAL" "TRANSFERRED" "null" _)]
  simp

theorem mutationReqs_cons_true {e : Event} {l : List Event}
    (h : isMutationReq e = true) : mutationReqs (e :: l) = e :: mutationReqs l := by
  simp [mutationReqs, List.filter_cons, h]

theorem flushAttempts_cons_req (m url b : String) (l : List Event) :
    flushAttempts (Event.req m url b :: l) = flushAttempts l := by
  simp [flushAttempts, List.filterMap_cons]

/-- C6: the unsupported kinds issue no ownership-mutation request and are
still logged.  getPublications issues only GETs and audit-upload writes, never
a mutation, and flushes one NOT_TRANSFERRED row with a non-empty note per
publication owned by the departing user; transferApprovals issues exactly the
graphql search plus one replaceApprovers mutation per PENDING approval (never
for a SENTBACK one), and flushes the sent-back approvals as NOT_TRANSFERRED
rows with a non-empty note. -/
theorem unsupported_kinds_never_mutated (env : Env) (u n : String)
    (hf : ∀ m url b, env.httpFails m url b = false) :
    mutationReqs (getPublications env u n).trace = []
    ∧ flushAttempts (getPublications env u n).trace
        = batchesSpec ((env.backend.publications.filter
            (fun p => env.backend.publicationOwner p == u)).map
            (fun i => auditLine u n "PUBLICATION" i (logDate env.now)
              "NOT_TRANSFERRED" pubNote))
    ∧ pubNote ≠ ""
    ∧ mutationReqs (transferApprovals env u n).trace
        = Event.req "POST" approvalsUrl ("getFilteredRequests approverId=" ++ u)
          :: ((env.backend.approvalEdges.filter (fun a => a.status == "PENDING")).map
              (fun a => Event.req "POST" approvalsUrl
                ("replaceApprovers id=" ++ a.id ++ " version=" ++ a.version ++
                  " newApproverId=" ++ n)))
    ∧ flushAttempts (transferApprovals env u n).trace
        = batchesSpec ((((env.backend.approvalEdges.filter
              (fun a => a.status == "PENDING")).map ApprovalRec.id)).map
              (fun i => auditLine u n "APPROVAL" i (logDate env.now) "TRANSFERRED" "null"))
          ++ batchesSpec ((((env.backend.approvalEdges.filter
              (fun a => a.status == "SENTBACK")).map ApprovalRec.id)).map
              (fun i => auditLine u n "APPROVAL" i (logDate env.now)
                "NOT_TRANSFERRED" sentBackNote))
    ∧ sentBackNote ≠ "" := by
  refine ⟨getPublications_no_mutation env u n, ?_, by decide, ?_, ?_, by decide⟩
  · rw [getPublications_trace hf]
    rw [show (Event.req "GET" "/api/publish/v2/publications" ""
        :: (if env.backend.publications.length > 0 then
              env.backend.publications.map
                (fun p => Event.req "GET" ("/api/publish/v2/publications/" ++ p) "")
            else [])
        ++ (logTransfers env u n "PUBLICATION"
              (env.backend.publications.filter
                (fun p => env.backend.publicationOwner p == u))
              "NOT_TRANSFERRED" pubNote).trace)
      = ([Event.req "GET" "/api/publish/v2/publications" ""]
          ++ (if env.backend.publications.length > 0 then
              env.backend.publications.map
                (fun p => Event.req "GET" ("/api/publish/v2/publications/" ++ p) "")
            else []))
        ++ (logTransfers env u n "PUBLICATION"
              (env.backend.publications.filter
                (fun p => env.backend.publicationOwner p == u))
              "NOT_TRANSFERRED" pubNote).trace from by simp]
    rw [flushAttempts_append, logTransfers_flushes]
    have h1 : flushAttempts ([Event.req "GET" "/api/publish/v2/publications" ""]
        ++ (if env.backend.publications.length > 0 then
            env.backend.publications.map
              (fun p => Event.req "GET" ("/api/publish/v2/publications/" ++ p) "")
          else [])) = [] := by
      rw [flushAttempts_append]
      split
      · rw [flushAttempts_map_get]
        rfl
      · rfl
    rw [h1, List.nil_append]
  · rw [transferApprovals_trace hf, mutationReqs_append, mutationReqs_append,
      mutationReqs_logTransfers, mutationReqs_logTransfers, List.append_nil,
      List.append_nil, mutationReqs_cons_true (show isMutationReq
        (Event.req "POST" approvalsUrl ("getFilteredRequests approverId=" ++ u))
        = true from rfl), mutationReqs_map_replace]
  · rw [transferApprovals_trace hf, flushAttempts_append, flushAttempts_append,
      flushAttempts_cons_req, flushAttempts_map_replace, logTransfers_flushes,
      logTransfers_flushes, List.nil_append]

/-- Witness for C6 at the concrete environment with one publication owned by
user 42 and one sent-back approval. -/
theorem unsupported_kinds_never_mutated_witness :
    mutationReqs (getPublications env6 "42" "99").trace = [] :=
  (unsupported_kinds_never_mutated env6 "42" "99" (fun m url b => rfl)).1

--------------------- C10: the tagsList TypeError ---------------------

theorem Out.bind_jsThrow {α β : Type} (msg : String) (f : α → Out β) :
    Out.bind (jsThrow msg) f = Out.mk [] (Except.error (Err.typeErr msg)) := rfl

/-- Running the per-dataset mutation loop over untagged datasets followed by a
tagged one: each untagged dataset gets its responsible-user PUT and its tag
POST, the tagged dataset gets only its responsible-user PUT, and the loop
aborts there with the TypeError thrown by reading tagsList. -/
theorem datasetsMutLoop_pre_tagged (env : Env) (n un : String)
    (hf : ∀ m url b, env.httpFails m url b = false) :
    ∀ (pre : List Dataset) (d0 : Dataset) (post : List Dataset),
      (∀ d ∈ pre, d.tagList = []) → d0.tagList ≠ [] →
      datasetsMutLoop env n un (pre ++ d0 :: post)
        = Out.mk
            ((pre.map (fun d =>
                [Event.req "PUT" (respUsersUrl d.id) ("responsibleUserId=" ++ n),
                 Event.req "POST" (tagsUrl d.id)
                   (String.intercalate ";" ["From " ++ un])])).flatten
              ++ [Event.req "PUT" (respUsersUrl d0.id) ("responsibleUserId=" ++ n)])
            (Except.error (Err.typeErr "Cannot read properties of undefined reading filter")) := by
  intro pre
  induction pre with
  | nil =>
    intro d0 post _ hd0
    rw [List.nil_append]
    simp only [datasetsMutLoop]
    rw [Out.bindEq, hreq_ok () (hf _ _ _), Out.bind_mk_ok,
      if_pos (List.length_pos.mpr hd0), Out.bind_jsThrow]
    apply Out.ext <;> simp
  | cons d pre ih =>
    intro d0 post hpre hd0
    have hd : d.tagList = [] := hpre d (List.mem_cons_self d pre)
    rw [List.cons_append]
    simp only [datasetsMutLoop]
    rw [Out.bindEq, hreq_ok () (hf _ _ _), Out.bind_mk_ok, hd]
    rw [if_neg (by simp)]
    rw [show (pure [] : Out (List String)) = Out.mk [] (Except.ok []) from rfl,
      Out.bind_mk_ok]
    rw [Out.bindEq, hreq_ok () (hf _ _ _), Out.bind_mk_ok]
    rw [ih d0 post (fun d2 hd2 => hpre d2 (List.mem_cons_of_mem d hd2)) hd0]
    apply Out.ext <;> simp

/-- When the first datasources page is non-empty and shorter than the count of
100, the dataset enumeration is that single search request. -/
theorem datasetsLoop_short_page {env : Env} (u : String) (fuel : Nat)
    (hf : ∀ m url b, env.httpFails m url b = false)
    (hpos : 0 < (env.backend.datasetPage 0).length)
    (hlen : (env.backend.datasetPage 0).length < 100) :
    datasetsLoop env u (fuel + 1) 0
      = Out.mk [Event.req "POST" "/api/data/ui/v3/datasources/search"
          ("entities=DATASET&owned_by_id=" ++ u ++ "&count=100&offset=" ++ toString 0)]
        (Except.ok (env.backend.datasetPage 0)) := by
  simp only [datasetsLoop]
  rw [Out.bindEq, hreq_ok _ (hf _ _ _), Out.bind_mk_ok, if_pos hpos, if_pos hlen]
  apply Out.ext <;> rfl

theorem flushAttempts_flatten_pairs (n un : String) (pre : List Dataset) :
    flushAttempts ((pre.map (fun d =>
        [Event.req "PUT" (respUsersUrl d.id) ("responsibleUserId=" ++ n),
         Event.req "POST" (tagsUrl d.id)
           (String.intercalate ";" ["From " ++ un])])).flatten) = [] := by
  induction pre with
  | nil => rfl
  | cons d pre ih =>
    rw [List.map_cons, List.flatten_cons, flushAttempts_append, ih]
    rfl

/-- C10: whenever the first datasources page holds a dataset with a non-empty
tagList (preceded only by untagged ones), transferDatasets throws the
TypeError from calling filter on the undefined tagsList property: the run
rejects, its trace stops at the responsible-user PUT of the tagged dataset (so
no later dataset is mutated or re-tagged), and no audit flush is attempted at
all. -/
theorem transferDatasets_tagged_dataset_throws (env : Env) (u n : String)
    (fuel : Nat) (pre post : List Dataset) (d0 : Dataset)
    (hpage : env.backend.datasetPage 0 = pre ++ d0 :: post)
    (hlen : (pre ++ d0 :: post).length < 100)
    (hpre : ∀ d ∈ pre, d.tagList = [])
    (hd0 : d0.tagList ≠ [])
    (hf : ∀ m url b, env.httpFails m url b = false) :
    (transferDatasets env (fuel + 1) u n).res
        = Except.error (Err.typeErr "Cannot read properties of undefined reading filter")
    ∧ (transferDatasets env (fuel + 1) u n).trace
        = Event.req "POST" "/api/data/ui/v3/datasources/search"
            ("entities=DATASET&owned_by_id=" ++ u ++ "&count=100&offset=" ++ toString 0)
          :: Event.req "GET" ("/api/content/v3/users/" ++ u) ""
          :: ((pre.map (fun d =>
                [Event.req "PUT" (respUsersUrl d.id) ("responsibleUserId=" ++ n),
                 Event.req "POST" (tagsUrl d.id)
                   (String.intercalate ";" ["From " ++ env.backend.displayName])])).flatten
              ++ [Event.req "PUT" (respUsersUrl d0.id) ("responsibleUserId=" ++ n)])
    ∧ flushAttempts (transferDatasets env (fuel + 1) u n).trace = [] := by
  have hpos : 0 < (env.backend.datasetPage 0).length := by
    rw [hpage]
    simp
  have hlen2 : (env.backend.datasetPage 0).length < 100 := by
    rw [hpage]
    exact hlen
  have hrun : transferDatasets env (fuel + 1) u n
      = Out.mk
          (Event.req "POST" "/api/data/ui/v3/datasources/search"
              ("entities=DATASET&owned_by_id=" ++ u ++ "&count=100&offset=" ++ toString 0)
            :: Event.req "GET" ("/api/content/v3/users/" ++ u) ""
            :: ((pre.map (fun d =>
                  [Event.req "PUT" (respUsersUrl d.id) ("responsibleUserId=" ++ n),
                   Event.req "POST" (tagsUrl d.id)
                     (String.intercalate ";" ["From " ++ env.backend.displayName])])).flatten
                ++ [Event.req "PUT" (respUsersUrl d0.id) ("responsibleUserId=" ++ n)]))
          (Except.error (Err.typeErr "Cannot read properties of undefined reading filter")) := by
    unfold transferDatasets
    simp only [Out.bindEq]
    rw [datasetsLoop_short_page u fuel hf hpos hlen2, Out.bind_mk_ok]
    rw [show getUserName env u
        = Out.mk [Event.req "GET" ("/api/content/v3/users/" ++ u) ""]
            (Except.ok env.backend.displayName) from hreq_ok _ (hf _ _ _)]
    rw [Out.bind_mk_ok, hpage,
      datasetsMutLoop_pre_tagged env n env.backend.displayName hf pre d0 post hpre hd0,
      Out.bind_mk_error]
    apply Out.ext <;> simp
  refine ⟨by rw [hrun], by rw [hrun], ?_⟩
  rw [hrun]
  show flushAttempts (_ :: _ :: _) = []
  rw [flushAttempts_cons_req, flushAttempts_cons_req, flushAttempts_append,
    flushAttempts_flatten_pairs]
  rfl

/-- Witness for C10 at the concrete backend whose single page is an untagged
dataset, a tagged one and another untagged one. -/
theorem transferDatasets_tagged_dataset_throws_witness :
    (Dataset.mk "D1" ["Finance"]).tagList ≠ []
    ∧ (transferDatasets env10 1 "42" "99").res
        = Except.error (Err.typeErr "Cannot read properties of undefined reading filter")
    ∧ flushAttempts (transferDatasets env10 1 "42" "99").trace = [] :=
  ⟨by decide,
   (transferDatasets_tagged_dataset_throws env10 "42" "99" 0 [Dataset.mk "D0" []]
      [Dataset.mk "D2" []] (Dataset.mk "D1" ["Finance"]) rfl (by decide) (by decide)
      (by decide) (fun m url b => rfl)).1,
   (transferDatasets_tagged_dataset_throws env10 "42" "99" 0 [Dataset.mk "D0" []]
      [Dataset.mk "D2" []] (Dataset.mk "D1" ["Finance"]) rfl (by decide) (by decide)
      (by decide) (fun m url b => rfl)).2.2⟩
